import Mathlib

/-!
Verification development for the hub-nfts-solana worker (consumer event
processor, Solana transaction assembly backends, and the on-chain indexer).

Shallow embedding conventions:
* Solana public keys, blockhashes, signatures and UUIDs are modelled as
  `String` atoms; program-derived addresses and asset ids are produced by
  injective tagged-string constructors.
* Byte buffers are `List Nat`.
* All I/O (RPC, asset API, database) is explicit: RPC calls are fields of an
  `Rpc` record of oracles, the database is a `Db` value threaded through the
  functions, and the Kafka producer is modelled as the list of emitted
  `(key, event)` pairs a run returns.
* `bincode` serialization of a Solana `Message` is modelled by an executable
  length-prefixed codec (`encodeMessage` / `decodeMessage`) with a proved
  round-trip property; the claims about serialized messages only depend on
  the codec being a bijection onto its range, which the round-trip theorem
  provides.
-/

namespace HubSolana

/-- A Solana public key (base58 string in the source). -/
abbrev Pubkey := String

/-- A recent blockhash (base58 string in the source). -/
abbrev Blockhash := String

/-- A UUID; the source keeps these as `uuid::Uuid` after parsing strings. -/
abbrev Uuid := String

/-- Models `Uuid::parse_str`: accepts exactly the canonical 36-character
hyphenated form in this embedding (a decidable abstraction of the real
parser; every claim only needs that parsing is a partial function). -/
def parseUuid (s : String) : Option Uuid :=
  if s.length = 36 then some s else none

/-! ## Length-prefixed byte codec

Models the `bincode` (de)serialization of `solana_program::message::Message`
used by `Solana::submit_transaction` and
`UncompressedRef::retry_update_mint`, and `Message::serialize`. -/

/-- Encode a `Nat` as a single self-delimiting byte-like token. -/
def encNat (n : Nat) : List Nat := [n]

/-- Decode a `Nat` token, returning the remainder. -/
def decNat : List Nat → Option (Nat × List Nat)
  | [] => none
  | n :: rest => some (n, rest)

/-- Encode a string: length, then the code points. -/
def encStr (s : String) : List Nat :=
  s.length :: s.toList.map Char.toNat

/-- Decode a length-prefixed string, returning the remainder. -/
def decStr : List Nat → Option (String × List Nat)
  | [] => none
  | n :: rest =>
    if _h : n ≤ rest.length then
      some (String.mk ((rest.take n).map Char.ofNat), rest.drop n)
    else none

/-- Encode a list: length, then each element's encoding. -/
def encList (enc : α → List Nat) (xs : List α) : List Nat :=
  xs.length :: (xs.map enc).flatten

/-- Decode `n` consecutive elements. -/
def decListAux (dec : List Nat → Option (α × List Nat)) :
    Nat → List Nat → Option (List α × List Nat)
  | 0, rest => some ([], rest)
  | n + 1, rest =>
    match dec rest with
    | none => none
    | some (a, rest1) =>
      match decListAux dec n rest1 with
      | none => none
      | some (as, rest2) => some (a :: as, rest2)

/-- Decode a length-prefixed list, returning the remainder. -/
def decList (dec : List Nat → Option (α × List Nat)) :
    List Nat → Option (List α × List Nat)
  | [] => none
  | n :: rest => decListAux dec n rest

theorem decNat_encNat (n : Nat) (r : List Nat) :
    decNat (encNat n ++ r) = some (n, r) := rfl

theorem char_ofNat_toNat (c : Char) : Char.ofNat c.toNat = c := by
  have h : Nat.isValidChar c.toNat := c.valid
  rw [Char.ofNat, dif_pos h]
  apply Char.ext
  simp [Char.ofNatAux, UInt32.ofNat', Char.toNat]
  exact UInt32.ext rfl

theorem decStr_encStr (s : String) (r : List Nat) :
    decStr (encStr s ++ r) = some (s, r) := by
  have hlen : (s.toList.map Char.toNat).length = s.length := by
    rw [List.length_map]; rfl
  have hle : s.length ≤ (s.toList.map Char.toNat ++ r).length := by
    rw [List.length_append, hlen]; omega
  have ht : (s.toList.map Char.toNat ++ r).take s.length
      = s.toList.map Char.toNat := by
    rw [← hlen]; exact List.take_left _ _
  have hd : (s.toList.map Char.toNat ++ r).drop s.length = r := by
    rw [← hlen]; exact List.drop_left _ _
  have hmap : (s.toList.map Char.toNat).map Char.ofNat = s.toList := by
    rw [List.map_map]
    have hco : (Char.ofNat ∘ Char.toNat) = id := funext char_ofNat_toNat
    rw [hco, List.map_id]
  show decStr (s.length :: (s.toList.map Char.toNat ++ r)) = some (s, r)
  rw [decStr, dif_pos hle, ht, hd, hmap]
  rfl

theorem decListAux_encodes (dec : List Nat → Option (α × List Nat))
    (enc : α → List Nat)
    (h : ∀ (a : α) (r : List Nat), dec (enc a ++ r) = some (a, r))
    (xs : List α) (r : List Nat) :
    decListAux dec xs.length ((xs.map enc).flatten ++ r) = some (xs, r) := by
  induction xs generalizing r with
  | nil => simp [decListAux]
  | cons a as ih =>
    simp only [List.map_cons, List.flatten_cons, List.length_cons,
      List.append_assoc]
    rw [decListAux, h a _]
    dsimp only
    rw [ih r]

theorem decList_encList (dec : List Nat → Option (α × List Nat))
    (enc : α → List Nat)
    (h : ∀ (a : α) (r : List Nat), dec (enc a ++ r) = some (a, r))
    (xs : List α) (r : List Nat) :
    decList dec (encList enc xs ++ r) = some (xs, r) := by
  simp only [encList, List.cons_append, decList]
  exact decListAux_encodes dec enc h xs r

/-! ## Solana wire-format messages

`solana_program::message::Message`: a header, the compiled account keys,
a recent blockhash and the compiled instructions. -/

/-- `MessageHeader`: the signer counts a serialized message declares. -/
structure MessageHeader where
  numRequiredSignatures : Nat
  numReadonlySignedAccounts : Nat
  numReadonlyUnsignedAccounts : Nat
deriving DecidableEq, Repr

/-- `CompiledInstruction`: indices into the message's account-key table. -/
structure CompiledInstruction where
  programIdIndex : Nat
  accounts : List Nat
  data : List Nat
deriving DecidableEq, Repr

/-- `solana_program::message::Message`. -/
structure SolMessage where
  header : MessageHeader
  accountKeys : List Pubkey
  recentBlockhash : Blockhash
  instructions : List CompiledInstruction
deriving DecidableEq, Repr

def encInstr (i : CompiledInstruction) : List Nat :=
  encNat i.programIdIndex ++ encList encNat i.accounts ++ encList encNat i.data

def decInstr (l : List Nat) : Option (CompiledInstruction × List Nat) :=
  match decNat l with
  | none => none
  | some (pid, r1) =>
    match decList decNat r1 with
    | none => none
    | some (accs, r2) =>
      match decList decNat r2 with
      | none => none
      | some (d, r3) => some (⟨pid, accs, d⟩, r3)

theorem decInstr_encInstr (i : CompiledInstruction) (r : List Nat) :
    decInstr (encInstr i ++ r) = some (i, r) := by
  simp only [encInstr, List.append_assoc, decInstr]
  rw [decNat_encNat]
  dsimp only
  rw [decList_encList decNat encNat decNat_encNat]
  dsimp only
  rw [decList_encList decNat encNat decNat_encNat]

/-- `Message::serialize` / the `bincode` encoding of a message. -/
def encodeMessage (m : SolMessage) : List Nat :=
  encNat m.header.numRequiredSignatures
    ++ encNat m.header.numReadonlySignedAccounts
    ++ encNat m.header.numReadonlyUnsignedAccounts
    ++ encList encStr m.accountKeys
    ++ encStr m.recentBlockhash
    ++ encList encInstr m.instructions

/-- `bincode::deserialize::<Message>`: inverse of `encodeMessage`, requiring
the whole buffer to be consumed. -/
def decodeMessage (l : List Nat) : Option SolMessage :=
  match decNat l with
  | none => none
  | some (nrs, r1) =>
    match decNat r1 with
    | none => none
    | some (nros, r2) =>
      match decNat r2 with
      | none => none
      | some (nrou, r3) =>
        match decList decStr r3 with
        | none => none
        | some (keys, r4) =>
          match decStr r4 with
          | none => none
          | some (bh, r5) =>
            match decList decInstr r5 with
            | some (ins, []) => some ⟨⟨nrs, nros, nrou⟩, keys, bh, ins⟩
            | _ => none

theorem decodeMessage_encodeMessage (m : SolMessage) :
    decodeMessage (encodeMessage m) = some m := by
  simp only [encodeMessage, List.append_assoc, decodeMessage]
  rw [decNat_encNat]; dsimp only
  rw [decNat_encNat]; dsimp only
  rw [decNat_encNat]; dsimp only
  rw [decList_encList decStr encStr decStr_encStr]; dsimp only
  rw [decStr_encStr]; dsimp only
  rw [← List.append_nil (encList encInstr m.instructions),
    decList_encList decInstr encInstr decInstr_encInstr]

/-! ## Account metas and message compilation

Models `solana_program::instruction::Instruction` /
`AccountMeta` and the legacy `Message::new_with_blockhash` compilation:
all account metas are stably sorted by (signer desc, writable desc), the
payer's metas are removed and the payer prepended as the first signer,
duplicates are merged (promoting writability), and program ids are appended
as readonly non-signers. -/

structure AccountMeta where
  pubkey : Pubkey
  is_signer : Bool
  is_writable : Bool
deriving DecidableEq, Repr

/-- `solana_program::instruction::Instruction`. -/
structure SolInstruction where
  program_id : Pubkey
  accounts : List AccountMeta
  data : List Nat
deriving DecidableEq, Repr

/-- Order-preserving de-duplication of program ids. -/
def dedupKeys (l : List Pubkey) : List Pubkey :=
  l.foldl (fun acc p => if acc.contains p then acc else acc ++ [p]) []

/-- One step of the unique-metas pass of `get_keys`: merge an account meta
into the accumulator, promoting writability on a duplicate key. -/
def promoteInto (acc : List AccountMeta) (m : AccountMeta) : List AccountMeta :=
  if acc.any (fun x => x.pubkey == m.pubkey) then
    acc.map (fun x =>
      if x.pubkey == m.pubkey then
        { x with is_writable := x.is_writable || m.is_writable }
      else x)
  else acc ++ [m]

def dedupPromote (l : List AccountMeta) : List AccountMeta :=
  l.foldl promoteInto []

/-- The stable sort of `get_keys`: the comparator orders by
(is_signer desc, is_writable desc), so the stably sorted list is the four
flag groups in order, each keeping its original relative order. -/
def sortMetas (l : List AccountMeta) : List AccountMeta :=
  l.filter (fun m => m.is_signer && m.is_writable)
    ++ l.filter (fun m => m.is_signer && !m.is_writable)
    ++ l.filter (fun m => !m.is_signer && m.is_writable)
    ++ l.filter (fun m => !m.is_signer && !m.is_writable)

def idxOf (l : List Pubkey) (p : Pubkey) : Nat :=
  l.findIdx (fun x => x == p)

/-- All account metas an instruction list mentions, program ids last as
readonly non-signers (as `get_keys` collects them). -/
def metasOf (instrs : List SolInstruction) : List AccountMeta :=
  (instrs.map (·.accounts)).flatten
    ++ (dedupKeys (instrs.map (·.program_id))).map (fun p => ⟨p, false, false⟩)

/-- The unique account metas of `get_keys(instructions, Some(payer))`:
sorted, with the payer's own metas removed. -/
def uniqueMetas (payer : Pubkey) (instrs : List SolInstruction) :
    List AccountMeta :=
  dedupPromote ((sortMetas (metasOf instrs)).filter (fun m => !(m.pubkey == payer)))

/-- The pubkeys of the signer metas of a meta list, in order. -/
def signerKeysOf (l : List AccountMeta) : List Pubkey :=
  (l.filter (·.is_signer)).map (·.pubkey)

/-- The signed account keys of the compiled message, payer first. -/
def signedKeys (payer : Pubkey) (instrs : List SolInstruction) : List Pubkey :=
  payer :: signerKeysOf (uniqueMetas payer instrs)

/-- The unsigned account keys of the compiled message. -/
def unsignedKeys (payer : Pubkey) (instrs : List SolInstruction) :
    List Pubkey :=
  ((uniqueMetas payer instrs).filter (fun m => !m.is_signer)).map (·.pubkey)

/-- `Message::new_with_blockhash(instructions, Some(&payer), &blockhash)`. -/
def compileMessage (payer : Pubkey) (blockhash : Blockhash)
    (instrs : List SolInstruction) : SolMessage :=
  let signed := signedKeys payer instrs
  let unsigned := unsignedKeys payer instrs
  let keys := signed ++ unsigned
  { header :=
      { numRequiredSignatures := signed.length
        numReadonlySignedAccounts :=
          ((uniqueMetas payer instrs).filter
            (fun m => m.is_signer && !m.is_writable)).length
        numReadonlyUnsignedAccounts :=
          ((uniqueMetas payer instrs).filter
            (fun m => !m.is_signer && !m.is_writable)).length }
    accountKeys := keys
    recentBlockhash := blockhash
    instructions := instrs.map (fun i =>
      { programIdIndex := idxOf keys i.program_id
        accounts := i.accounts.map (fun a => idxOf keys a.pubkey)
        data := i.data }) }

/-- The required signers a compiled message declares: the first
`numRequiredSignatures` account keys. -/
def requiredSigners (m : SolMessage) : List Pubkey :=
  m.accountKeys.take m.header.numRequiredSignatures

theorem requiredSigners_compileMessage (payer : Pubkey) (bh : Blockhash)
    (instrs : List SolInstruction) :
    requiredSigners (compileMessage payer bh instrs) = signedKeys payer instrs := by
  simp only [requiredSigners, compileMessage]
  exact List.take_left _ _

theorem numRequiredSignatures_compileMessage (payer : Pubkey) (bh : Blockhash)
    (instrs : List SolInstruction) :
    (compileMessage payer bh instrs).header.numRequiredSignatures
      = (signedKeys payer instrs).length := rfl

theorem signerKeysOf_promote_map (k : Pubkey) (w : Bool)
    (acc : List AccountMeta) :
    signerKeysOf (acc.map (fun x =>
      if x.pubkey == k then { x with is_writable := x.is_writable || w }
      else x)) = signerKeysOf acc := by
  induction acc with
  | nil => rfl
  | cons a l ih =>
    by_cases hk : a.pubkey = k <;> by_cases hs : a.is_signer <;>
      simp [signerKeysOf, List.filter_cons, hk, hs] <;>
      simpa [signerKeysOf] using ih

theorem signerKeysOf_promoteInto (acc : List AccountMeta) (m : AccountMeta) :
    signerKeysOf (promoteInto acc m)
      = if acc.any (fun x => x.pubkey == m.pubkey) then signerKeysOf acc
        else if m.is_signer then signerKeysOf acc ++ [m.pubkey]
        else signerKeysOf acc := by
  unfold promoteInto
  by_cases h : acc.any (fun x => x.pubkey == m.pubkey)
  · rw [if_pos h, if_pos h]
    exact signerKeysOf_promote_map m.pubkey m.is_writable acc
  · rw [if_neg h, if_neg h]
    simp only [signerKeysOf, List.filter_append, List.map_append]
    by_cases hm : m.is_signer
    · simp [hm]
    · simp only [Bool.not_eq_true] at hm
      simp [hm]

theorem signerKeysOf_foldl_nonsigners (b : List AccountMeta)
    (hb : ∀ m ∈ b, m.is_signer = false) (acc : List AccountMeta) :
    signerKeysOf (b.foldl promoteInto acc) = signerKeysOf acc := by
  induction b generalizing acc with
  | nil => rfl
  | cons m b ih =>
    rw [List.foldl_cons, ih (fun x hx => hb x (List.mem_cons_of_mem m hx)),
      signerKeysOf_promoteInto]
    have hm : m.is_signer = false := hb m (List.mem_cons_self m b)
    by_cases h : acc.any (fun x => x.pubkey == m.pubkey) <;> simp [h, hm]

theorem signerKeysOf_dedupPromote_append (a b : List AccountMeta)
    (hb : ∀ m ∈ b, m.is_signer = false) :
    signerKeysOf (dedupPromote (a ++ b)) = signerKeysOf (dedupPromote a) := by
  unfold dedupPromote
  rw [List.foldl_append]
  exact signerKeysOf_foldl_nonsigners b hb _

/-- The signer keys of the compiled unique metas are computed by the two
signer groups of the stable sort alone: the non-signer groups can only merge
into existing entries or append non-signer entries. -/
theorem signerKeysOf_uniqueMetas (payer : Pubkey) (instrs : List SolInstruction) :
    signerKeysOf (uniqueMetas payer instrs)
      = signerKeysOf (dedupPromote
          (((metasOf instrs).filter (fun m => m.is_signer && m.is_writable)).filter
              (fun m => !(m.pubkey == payer))
            ++ ((metasOf instrs).filter (fun m => m.is_signer && !m.is_writable)).filter
              (fun m => !(m.pubkey == payer)))) := by
  unfold uniqueMetas sortMetas
  rw [List.filter_append, List.filter_append, List.filter_append,
    List.append_assoc]
  apply signerKeysOf_dedupPromote_append
  intro m hm
  rcases List.mem_append.mp hm with h | h <;>
  · have h1 := (List.mem_filter.mp h).1
    have h2 := (List.mem_filter.mp h1).2
    simp only [Bool.and_eq_true, Bool.not_eq_true'] at h2
    exact h2.1

/-! ## Program ids, derived addresses, keypairs

Program ids are the fixed base58 constants of the linked crates. Program
derived addresses (`Pubkey::find_program_address`) and associated token
accounts (`get_associated_token_address`) are deterministic functions of
their seeds; they are modelled by injective tagged-string constructors. -/

def systemProgramId : Pubkey := "11111111111111111111111111111111"
def splTokenId : Pubkey := "TokenkegQfeZyiNwAJbNbGKPFXCWuBvf9Ss623VQ5DA"
def ataProgramId : Pubkey := "ATokenGPvbdGVxr1b2hvZbsiqW5xWH25efTNsLJA8knL"
def tokenMetadataProgId : Pubkey := "metaqbxxUerdq28cj1RbAWkYQm3ybzjb6a8bt518x1s"
def bubblegumProgId : Pubkey := "BGUMAp9Gq7iTEuizy4pqaxsTyUCBK68MDfK752saRPUY"
def noopProgId : Pubkey := "noopb9bkMVfRPU8AsbpTUg8AQkHtKwMYZiFUjNRtMmV"
def accountCompressionProgId : Pubkey := "cmtDvXumGCrqC1Age74AVPhSRVXJMd8PJS91L8KbNCK"
def sysvarRentId : Pubkey := "SysvarRent111111111111111111111111111111111"

/-- PDA of seeds `["metadata", token_metadata::ID, mint]`. -/
def metadataPda (mint : Pubkey) : Pubkey := "pda-metadata:" ++ mint

/-- PDA of seeds `["metadata", token_metadata::ID, mint, "edition"]`. -/
def masterEditionPda (mint : Pubkey) : Pubkey := "pda-edition:" ++ mint

/-- The `edition_mark_pda` computed inside
`mint_new_edition_from_master_edition_via_token`: PDA of seeds
`["metadata", token_metadata::ID, master_mint, "edition",
(edition / EDITION_MARKER_BIT_SIZE).to_string()]` with
`EDITION_MARKER_BIT_SIZE = 248`. -/
def editionMarkPda (masterMint : Pubkey) (edition : Nat) : Pubkey :=
  "pda-edition-mark:" ++ masterMint ++ ":" ++ toString (edition / 248)

/-- `get_associated_token_address(owner, mint)`. -/
def get_associated_token_address (owner mint : Pubkey) : Pubkey :=
  "ata:" ++ owner ++ ":" ++ mint

/-- `mpl_bubblegum::utils::get_asset_id(merkle_tree, nonce)`: the PDA of
seeds `["asset", merkle_tree, nonce_le_bytes]`. -/
def get_asset_id (tree : Pubkey) (nonce : Nat) : Pubkey :=
  "asset-id:" ++ tree ++ ":" ++ toString nonce

/-- An ephemeral keypair (`Keypair::new()` output, passed in explicitly). -/
structure Keypair where
  pub : Pubkey
deriving DecidableEq, Repr

/-- `keypair.try_sign_message(bytes)`: an ed25519 signature over the exact
byte buffer, modelled injectively in the keypair and the bytes. -/
def signMessage (kp : Keypair) (bytes : List Nat) : String :=
  "sig:" ++ kp.pub ++ ":" ++ toString bytes

/-! ## Backend response and pending-transaction types -/

/-- `crate::backend::TransactionResponse<A>`. -/
structure TransactionResponse (A : Type) where
  serialized_message : List Nat
  signatures_or_signers_public_keys : List String
  addresses : A
deriving Repr

/-- `proto::SolanaPendingTransaction`. -/
structure SolanaPendingTransaction where
  serialized_message : List Nat
  signatures_or_signers_public_keys : List String
deriving DecidableEq, Repr

/-- `impl From<TransactionResponse<A>> for SolanaPendingTransaction`. -/
def TransactionResponse.toPending (t : TransactionResponse A) :
    SolanaPendingTransaction :=
  ⟨t.serialized_message, t.signatures_or_signers_public_keys⟩

/-! ## Address bags (`crate::backend`) -/

structure MasterEditionAddresses where
  metadata : Pubkey
  associated_token_account : Pubkey
  owner : Pubkey
  master_edition : Pubkey
  mint : Pubkey
  update_authority : Pubkey
deriving DecidableEq, Repr

structure MintMetaplexAddresses where
  mint : Pubkey
  metadata : Pubkey
  owner : Pubkey
  associated_token_account : Pubkey
  recipient : Pubkey
  update_authority : Pubkey
deriving DecidableEq, Repr

structure MintCompressedMintV1Addresses where
  merkle_tree : Pubkey
  tree_authority : Pubkey
  tree_delegate : Pubkey
  leaf_owner : Pubkey
deriving DecidableEq, Repr

structure TransferAssetAddresses where
  owner : Pubkey
  recipient : Pubkey
  recipient_associated_token_account : Pubkey
  owner_associated_token_account : Pubkey
deriving DecidableEq, Repr

structure TransferCompressedMintV1Addresses where
  owner : Pubkey
  recipient : Pubkey
deriving DecidableEq, Repr

structure UpdateCollectionMintAddresses where
  payer : Pubkey
  metadata : Pubkey
  update_authority : Pubkey
deriving DecidableEq, Repr

structure UpdateMasterEditionAddresses where
  metadata : Pubkey
  update_authority : Pubkey
deriving DecidableEq, Repr

structure MintEditionAddresses where
  edition : Pubkey
  mint : Pubkey
  metadata : Pubkey
  owner : Pubkey
  associated_token_account : Pubkey
  recipient : Pubkey
deriving DecidableEq, Repr

structure SwitchCollectionAddresses where
  payer : Pubkey
  new_collection_authority : Pubkey
deriving DecidableEq, Repr

/-! ## Persisted entities and the database -/

/-- `collections::Model`. -/
structure CollectionRow where
  id : Uuid
  master_edition : String
  owner : String
  metadata : String
  associated_token_account : String
  mint : String
  update_authority : String
  created_at : Nat
deriving DecidableEq, Repr

/-- `collection_mints::Model`. -/
structure CollectionMintRow where
  id : Uuid
  collection_id : Uuid
  mint : String
  owner : String
  associated_token_account : String
  created_at : Nat
deriving DecidableEq, Repr

/-- `compression_leafs::Model`. -/
structure CompressionLeafRow where
  id : Uuid
  collection_id : Uuid
  merkle_tree : String
  tree_authority : String
  tree_delegate : String
  leaf_owner : String
  asset_id : Option String
  created_at : Nat
deriving DecidableEq, Repr

/-- `update_revisions::Model`. -/
structure UpdateRevisionRow where
  id : Uuid
  mint_id : Uuid
  serialized_message : List Nat
  payer : String
  metadata : String
  update_authority : String
deriving DecidableEq, Repr

/-- The database state the persistence facade
(`holaplex_hub_nfts_solana_core`) operates on. -/
structure Db where
  collections : List CollectionRow
  collection_mints : List CollectionMintRow
  compression_leafs : List CompressionLeafRow
  update_revisions : List UpdateRevisionRow
deriving DecidableEq, Repr

/-- `Collection::find_by_id`. -/
def Db.findCollection (db : Db) (id : Uuid) : Option CollectionRow :=
  db.collections.find? (fun c => c.id == id)

/-- `CollectionMint::find_by_id`. -/
def Db.findMint (db : Db) (id : Uuid) : Option CollectionMintRow :=
  db.collection_mints.find? (fun c => c.id == id)

/-- `CollectionMint::find_by_ata`. -/
def Db.findMintByAta (db : Db) (ata : String) : Option CollectionMintRow :=
  db.collection_mints.find? (fun c => c.associated_token_account == ata)

/-- `CompressionLeaf::find_by_id`. -/
def Db.findLeaf (db : Db) (id : Uuid) : Option CompressionLeafRow :=
  db.compression_leafs.find? (fun c => c.id == id)

/-- `CompressionLeaf::find_by_asset_id`. -/
def Db.findLeafByAssetId (db : Db) (assetId : String) :
    Option CompressionLeafRow :=
  db.compression_leafs.find? (fun c => c.asset_id == some assetId)

/-- `update_revisions::Entity::find_by_id`. -/
def Db.findRevision (db : Db) (id : Uuid) : Option UpdateRevisionRow :=
  db.update_revisions.find? (fun c => c.id == id)

/-- `CompressionLeaf::update`: replace the row with the model's primary key. -/
def Db.updateLeaf (db : Db) (m : CompressionLeafRow) : Db :=
  { db with compression_leafs :=
      db.compression_leafs.map (fun x => if x.id == m.id then m else x) }

/-- `CollectionMint::update`: replace the row with the model's primary key. -/
def Db.updateMintRow (db : Db) (m : CollectionMintRow) : Db :=
  { db with collection_mints :=
      db.collection_mints.map (fun x => if x.id == m.id then m else x) }

/-! ## External-service oracles (Solana RPC, Digital Asset API)

Every RPC and asset-API call the consumer makes is a field of `Rpc`; a run
of a processor function is parametrised by the oracle's responses. -/

/-- `spl_account_compression::ChangeLogEvent` (only `V1` exists). -/
inductive ChangeLogEvent where
  | v1 (index : Nat)
deriving DecidableEq, Repr

/-- `spl_account_compression::events::AccountCompressionEvent`. -/
inductive AccountCompressionEvent where
  | changeLog (e : ChangeLogEvent)
  | applicationData
deriving DecidableEq, Repr

/-- `solana_transaction_status::UiInstruction`. -/
inductive UiInstructionW where
  | compiled (data : String)
  | parsed
deriving DecidableEq, Repr

/-- `solana_transaction_status::UiInnerInstructions`. -/
structure UiInnerInstructionsW where
  instructions : List UiInstructionW
deriving DecidableEq, Repr

/-- The `meta` of a confirmed transaction (`get_transaction` response). -/
structure TxMeta where
  inner_instructions : Option (List UiInnerInstructionsW)
deriving DecidableEq, Repr

/-- A `get_transaction` response (`EncodedConfirmedTransactionWithStatusMeta`). -/
structure TxWithMeta where
  meta : Option TxMeta
deriving DecidableEq, Repr

/-- `crate::solana::SolanaAssetIdError`. -/
inductive SolanaAssetIdError where
  | NoTransactionMeta
  | NoInnerInstruction
  | Rpc
  | NoNonce
  | Base58
  | BorshDeserialize
  | NotFound
deriving DecidableEq, Repr

/-- `asset.compression` of a Digital Asset API `getAsset` response. -/
structure AssetCompressionInfo where
  data_hash : Option (List Nat)
  creator_hash : Option (List Nat)
  leaf_id : Nat
deriving DecidableEq, Repr

/-- A Digital Asset API `getAsset` response. -/
structure AssetRec where
  compression : AssetCompressionInfo
deriving DecidableEq, Repr

/-- A Digital Asset API `getAssetProof` response. -/
structure AssetProofRec where
  root : List Nat
  proof : List Pubkey
deriving DecidableEq, Repr

/-- An unpacked SPL token account (`spl_token::state::Account`). -/
structure TokenAccount where
  mint : Pubkey
  owner : Pubkey
deriving DecidableEq, Repr

/-- `solana_sdk::transaction::Transaction` as rebuilt for submission. -/
structure SolanaTx where
  signatures : List String
  message : SolMessage
deriving DecidableEq, Repr

/-- The oracles for every external call. `decodeCompressionEvent` stands for
the base58 decode plus Borsh `AccountCompressionEvent::try_from_slice` of a
noop instruction's data (external library code); its error is the
`Base58`/`BorshDeserialize` case it produces. -/
structure Rpc where
  latestBlockhash : Except String Blockhash
  minRentExemption : Nat → Except String Nat
  sendTransaction : SolanaTx → Except String String
  getTransaction : String → Except String TxWithMeta
  decodeCompressionEvent :
    String → Except SolanaAssetIdError AccountCompressionEvent
  getAsset : String → Except String AssetRec
  getAssetProof : String → Except String AssetProofRec
  getAccount : Pubkey → Except String TokenAccount

/-- The static configuration of `crate::solana::Solana`. -/
structure SolanaCfg where
  treasury_wallet_address : Pubkey
  tree_authority : Pubkey
  merkle_tree : Pubkey
  bubblegum_cpi_address : Pubkey
deriving DecidableEq, Repr

/-- `Solana::extract_compression_nonce`: fetch the confirmed transaction,
take inner-instruction group 0, instruction index 3, and read the change-log
`index` out of its data. -/
def extract_compression_nonce (rpc : Rpc) (signature : String) :
    Except SolanaAssetIdError Nat :=
  match rpc.getTransaction signature with
  | .error _ => .error .Rpc
  | .ok response =>
    match response.meta with
    | none => .error .NoTransactionMeta
    | some meta =>
      match meta.inner_instructions with
      | none => .error .NoInnerInstruction
      | some inner_instructions =>
        match inner_instructions.get? 0 with
        | none => .error .NoInnerInstruction
        | some instructions =>
          match instructions.instructions.get? 3 with
          | none => .error .NoInnerInstruction
          | some noop_change_log_instruction =>
            match noop_change_log_instruction with
            | .compiled data =>
              match rpc.decodeCompressionEvent data with
              | .error e => .error e
              | .ok (.changeLog (.v1 index)) => .ok index
              | .ok .applicationData => .error .NoNonce
            | .parsed => .error .NoNonce

/-- `treasury_events::SolanaTransactionResult`. -/
structure SolanaTransactionResult where
  status : Int
  serialized_message : Option (List Nat)
  signed_message_signatures : List String
deriving DecidableEq, Repr

/-- `Solana::submit_transaction`: rebuild the transaction from the signed
signatures and the deserialized message, and send it. Also returns the list
of transactions handed to `send_transaction` (empty when rebuilding fails
before the RPC call), so theorems can speak about what was submitted. -/
def submit_transaction (rpc : Rpc) (t : SolanaTransactionResult) :
    Except String String × List SolanaTx :=
  match t.serialized_message with
  | none => (.error "serialized message message not found", [])
  | some bytes =>
    match decodeMessage bytes with
    | none => (.error "bincode deserialize failed", [])
    | some message =>
      let tx : SolanaTx := ⟨t.signed_message_signatures, message⟩
      match rpc.sendTransaction tx with
      | .ok signature => (.ok signature, [tx])
      | .error e => (.error ("failed to send transaction: " ++ e), [tx])

/-! ## Intent payloads (protobuf messages) -/

structure CreatorArg where
  address : String
  verified : Bool
  share : Nat
deriving DecidableEq, Repr

structure MasterEditionArg where
  name : String
  symbol : String
  seller_fee_basis_points : Nat
  metadata_uri : String
  creators : List CreatorArg
  supply : Option Nat
  owner_address : String
deriving DecidableEq, Repr

structure MetaplexMasterEditionTransaction where
  master_edition : Option MasterEditionArg
deriving DecidableEq, Repr

structure MetaplexMetadataArg where
  name : String
  symbol : String
  seller_fee_basis_points : Nat
  metadata_uri : String
  creators : List CreatorArg
  owner_address : String
deriving DecidableEq, Repr

structure MintMetaplexMetadataTransaction where
  recipient_address : String
  metadata : Option MetaplexMetadataArg
  collection_id : String
  compressed : Bool
deriving DecidableEq, Repr

structure TransferMetaplexAssetTransaction where
  owner_address : String
  recipient_address : String
  collection_mint_id : String
deriving DecidableEq, Repr

structure MintMetaplexEditionTransaction where
  recipient_address : String
  owner_address : String
  edition : Nat
  collection_id : String
deriving DecidableEq, Repr

structure UpdateSolanaMintPayload where
  metadata : Option MetaplexMetadataArg
  collection_id : String
  mint_id : String
deriving DecidableEq, Repr

structure SolanaNftEventKey where
  id : String
  user_id : String
  project_id : String
deriving DecidableEq, Repr

/-! ## Instruction constructors (linked Solana/SPL/Metaplex crates)

Each constructor produces the account-meta list the library instruction
builder produces (signer/writable flags as in the crate sources); the
instruction data bytes are opaque tagged payloads — no claim inspects them. -/

/-- `system_instruction::create_account(from, to, lamports, space, owner)`. -/
def createAccountIx (funder newAccount : Pubkey) (lamports space : Nat)
    (owner : Pubkey) : SolInstruction :=
  ⟨systemProgramId,
    [⟨funder, true, true⟩, ⟨newAccount, true, true⟩],
    encStr "sys-create-account" ++ encNat lamports ++ encNat space
      ++ encStr owner⟩

/-- `spl_token::instruction::initialize_mint(token, mint, authority,
Some(freeze_authority), 0)`. -/
def initializeMintIx (mint authority : Pubkey) : SolInstruction :=
  ⟨splTokenId,
    [⟨mint, false, true⟩, ⟨sysvarRentId, false, false⟩],
    encStr "initialize-mint" ++ encStr authority⟩

/-- `spl_associated_token_account::instruction::create_associated_token_account
(funder, owner, mint, token_program)`. -/
def createAtaIx (funder owner mint : Pubkey) : SolInstruction :=
  ⟨ataProgramId,
    [⟨funder, true, true⟩,
      ⟨get_associated_token_address owner mint, false, true⟩,
      ⟨owner, false, false⟩, ⟨mint, false, false⟩,
      ⟨systemProgramId, false, false⟩, ⟨splTokenId, false, false⟩],
    encStr "create-ata"⟩

/-- `spl_token::instruction::mint_to(token, mint, dest, authority,
signer_pubkeys, amount)`: the authority is a signer iff the multisig
signer list is empty; multisig signers are appended as readonly signers. -/
def mintToIx (mint dest authority : Pubkey) (multisig : List Pubkey)
    (amount : Nat) : SolInstruction :=
  ⟨splTokenId,
    [⟨mint, false, true⟩, ⟨dest, false, true⟩,
      ⟨authority, multisig.isEmpty, false⟩]
      ++ multisig.map (fun s => ⟨s, true, false⟩),
    encStr "mint-to" ++ encNat amount⟩

/-- `mpl_token_metadata::instruction::create_metadata_accounts_v3` with
`update_authority_is_signer = true`. -/
def createMetadataV3Ix (metadata mint mintAuthority payer updateAuthority :
    Pubkey) (tag : String) : SolInstruction :=
  ⟨tokenMetadataProgId,
    [⟨metadata, false, true⟩, ⟨mint, false, false⟩,
      ⟨mintAuthority, true, false⟩, ⟨payer, true, true⟩,
      ⟨updateAuthority, true, false⟩,
      ⟨systemProgramId, false, false⟩, ⟨sysvarRentId, false, false⟩],
    encStr tag⟩

/-- `mpl_token_metadata::instruction::create_master_edition_v3`. -/
def createMasterEditionV3Ix (edition mint updateAuthority mintAuthority
    metadata payer : Pubkey) : SolInstruction :=
  ⟨tokenMetadataProgId,
    [⟨edition, false, true⟩, ⟨mint, false, true⟩,
      ⟨updateAuthority, true, false⟩, ⟨mintAuthority, true, false⟩,
      ⟨payer, true, true⟩, ⟨metadata, false, true⟩,
      ⟨splTokenId, false, false⟩, ⟨systemProgramId, false, false⟩,
      ⟨sysvarRentId, false, false⟩],
    encStr "create-master-edition-v3"⟩

/-- `mpl_token_metadata::instruction::verify_sized_collection_item`. -/
def verifySizedCollectionItemIx (metadata collectionAuthority payer
    collectionMint collectionMetadata collectionMasterEdition : Pubkey) :
    SolInstruction :=
  ⟨tokenMetadataProgId,
    [⟨metadata, false, true⟩, ⟨collectionAuthority, true, true⟩,
      ⟨payer, true, true⟩, ⟨collectionMint, false, false⟩,
      ⟨collectionMetadata, false, true⟩,
      ⟨collectionMasterEdition, false, false⟩],
    encStr "verify-sized-collection-item"⟩

/-- `spl_token::instruction::transfer(token, source, dest, authority,
signer_pubkeys, amount)`. -/
def tokenTransferIx (source dest authority : Pubkey)
    (multisig : List Pubkey) (amount : Nat) : SolInstruction :=
  ⟨splTokenId,
    [⟨source, false, true⟩, ⟨dest, false, true⟩,
      ⟨authority, multisig.isEmpty, false⟩]
      ++ multisig.map (fun s => ⟨s, true, false⟩),
    encStr "token-transfer" ++ encNat amount⟩

/-- `spl_token::instruction::close_account(token, account, dest, owner,
signer_pubkeys)`. -/
def closeAccountIx (account dest owner : Pubkey) (multisig : List Pubkey) :
    SolInstruction :=
  ⟨splTokenId,
    [⟨account, false, true⟩, ⟨dest, false, true⟩,
      ⟨owner, multisig.isEmpty, false⟩]
      ++ multisig.map (fun s => ⟨s, true, false⟩),
    encStr "close-account"⟩

/-- `mpl_token_metadata::instruction::update_metadata_accounts_v2(program,
metadata_account, update_authority, new_update_authority, data, primary_sale,
is_mutable)`: the only accounts are the metadata (writable) and the update
authority (readonly signer); the `DataV2` payload is opaque data. -/
def updateMetadataV2Ix (metadata updateAuthority : Pubkey) (tag : String) :
    SolInstruction :=
  ⟨tokenMetadataProgId,
    [⟨metadata, false, true⟩, ⟨updateAuthority, true, false⟩],
    encStr tag⟩

/-- `mpl_token_metadata::instruction::unverify_sized_collection_item` with
no collection-authority record. -/
def unverifySizedCollectionItemIx (metadata collectionAuthority payer
    collectionMint collectionMetadata collectionMasterEdition : Pubkey) :
    SolInstruction :=
  ⟨tokenMetadataProgId,
    [⟨metadata, false, true⟩, ⟨collectionAuthority, true, true⟩,
      ⟨payer, true, true⟩, ⟨collectionMint, false, false⟩,
      ⟨collectionMetadata, false, true⟩,
      ⟨collectionMasterEdition, false, false⟩],
    encStr "unverify-sized-collection-item"⟩

/-- `mpl_token_metadata::instruction::set_and_verify_sized_collection_item`
with no collection-authority record: the (new) collection authority is a
writable SIGNER, as is the payer. -/
def setAndVerifySizedCollectionItemIx (metadata collectionAuthority payer
    updateAuthority collectionMint collectionMetadata
    collectionMasterEdition : Pubkey) : SolInstruction :=
  ⟨tokenMetadataProgId,
    [⟨metadata, false, true⟩, ⟨collectionAuthority, true, true⟩,
      ⟨payer, true, true⟩, ⟨updateAuthority, false, false⟩,
      ⟨collectionMint, false, false⟩, ⟨collectionMetadata, false, true⟩,
      ⟨collectionMasterEdition, false, false⟩],
    encStr "set-and-verify-sized-collection-item"⟩

/-- `mpl_token_metadata::instruction::mint_new_edition_from_master_edition_via_token`:
the new-mint authority and the token-account owner are readonly signers, the
payer a writable signer; the edition-mark PDA is derived from the master
mint and the edition number. -/
def mintNewEditionIx (newMetadata newEdition masterEdition newMint
    newMintAuthority payer tokenAccountOwner tokenAccount
    newMetadataUpdateAuthority metadata masterMint : Pubkey)
    (edition : Nat) : SolInstruction :=
  ⟨tokenMetadataProgId,
    [⟨newMetadata, false, true⟩, ⟨newEdition, false, true⟩,
      ⟨masterEdition, false, true⟩, ⟨newMint, false, true⟩,
      ⟨editionMarkPda masterMint edition, false, true⟩,
      ⟨newMintAuthority, true, false⟩, ⟨payer, true, true⟩,
      ⟨tokenAccountOwner, true, false⟩, ⟨tokenAccount, false, false⟩,
      ⟨newMetadataUpdateAuthority, false, false⟩, ⟨metadata, false, false⟩,
      ⟨splTokenId, false, false⟩, ⟨systemProgramId, false, false⟩,
      ⟨sysvarRentId, false, false⟩],
    encStr "mint-new-edition-from-master-edition-via-token"
      ++ encNat edition⟩

/-- `spl_token::state::Mint::LEN`. -/
def mintLen : Nat := 82

/-! ## Assembly backends (`crate::solana`)

`UncompressedRef`, `CompressedRef` wrap the `Solana` context; the ephemeral
`Keypair::new()` of the minting builders is passed in explicitly. -/

namespace UncompressedRef

/-- The instruction stream of `UncompressedRef::create`. -/
def createInstructions (payer owner mintPub : Pubkey) (rent : Nat) :
    List SolInstruction :=
  [createAccountIx payer mintPub rent mintLen splTokenId,
    initializeMintIx mintPub owner,
    createAtaIx payer owner mintPub,
    mintToIx mintPub (get_associated_token_address owner mintPub) owner [] 1,
    createMetadataV3Ix (metadataPda mintPub) mintPub owner payer owner
      "create-metadata-v3-sized",
    createMasterEditionV3Ix (masterEditionPda mintPub) mintPub owner owner
      (metadataPda mintPub) payer]

/-- `impl CollectionBackend for UncompressedRef — fn create`. -/
def create (cfg : SolanaCfg) (rpc : Rpc) (mint : Keypair)
    (txn : MetaplexMasterEditionTransaction) :
    Except String (TransactionResponse MasterEditionAddresses) :=
  match txn.master_edition with
  | none => .error "master edition message not found"
  | some me =>
    let payer := cfg.treasury_wallet_address
    let owner : Pubkey := me.owner_address
    let metadata := metadataPda mint.pub
    let associated_token_account := get_associated_token_address owner mint.pub
    let master_edition := masterEditionPda mint.pub
    match rpc.minRentExemption mintLen with
    | .error e => .error e
    | .ok rent =>
      match rpc.latestBlockhash with
      | .error e => .error e
      | .ok blockhash =>
        let instructions : List SolInstruction :=
          createInstructions payer owner mint.pub rent
        let message := compileMessage payer blockhash instructions
        let serialized_message := encodeMessage message
        let mint_signature := signMessage mint serialized_message
        .ok { serialized_message
              signatures_or_signers_public_keys :=
                [payer, mint_signature, owner]
              addresses :=
                { master_edition
                  update_authority := owner
                  associated_token_account
                  mint := mint.pub
                  owner
                  metadata } }

/-- `impl MintBackend<MintMetaplexMetadataTransaction, MintMetaplexAddresses>
for UncompressedRef — fn mint`. -/
def mint (cfg : SolanaCfg) (rpc : Rpc) (mintKp : Keypair)
    (collection : CollectionRow) (txn : MintMetaplexMetadataTransaction) :
    Except String (TransactionResponse MintMetaplexAddresses) :=
  match txn.metadata with
  | none => .error "metadata message not found"
  | some md =>
    let payer := cfg.treasury_wallet_address
    let owner : Pubkey := md.owner_address
    let recipient : Pubkey := txn.recipient_address
    let collection_mint : Pubkey := collection.mint
    let collection_metadata : Pubkey := collection.metadata
    let collection_master_edition : Pubkey := collection.master_edition
    let metadata := metadataPda mintKp.pub
    let associated_token_account :=
      get_associated_token_address recipient mintKp.pub
    match rpc.minRentExemption mintLen with
    | .error e => .error e
    | .ok rent =>
      match rpc.latestBlockhash with
      | .error e => .error e
      | .ok blockhash =>
        let instructions : List SolInstruction :=
          [createAccountIx payer mintKp.pub rent mintLen splTokenId,
            initializeMintIx mintKp.pub owner,
            createAtaIx payer recipient mintKp.pub,
            mintToIx mintKp.pub associated_token_account owner [] 1,
            createMetadataV3Ix metadata mintKp.pub owner payer owner
              "create-metadata-v3-unverified-collection",
            verifySizedCollectionItemIx metadata owner payer collection_mint
              collection_metadata collection_master_edition]
        let message := compileMessage payer blockhash instructions
        let serialized_message := encodeMessage message
        let mint_signature := signMessage mintKp serialized_message
        .ok { serialized_message
              signatures_or_signers_public_keys :=
                [payer, mint_signature, owner]
              addresses :=
                { update_authority := owner
                  associated_token_account
                  mint := mintKp.pub
                  owner
                  metadata
                  recipient } }

/-- `impl TransferBackend<collection_mints::Model, TransferAssetAddresses>
for UncompressedRef — fn transfer`. -/
def transfer (cfg : SolanaCfg) (rpc : Rpc)
    (collection_mint : CollectionMintRow)
    (txn : TransferMetaplexAssetTransaction) :
    Except String (TransactionResponse TransferAssetAddresses) :=
  let sender : Pubkey := txn.owner_address
  let recipient : Pubkey := txn.recipient_address
  let mint_address : Pubkey := collection_mint.mint
  let payer := cfg.treasury_wallet_address
  match rpc.latestBlockhash with
  | .error e => .error e
  | .ok blockhash =>
    let source_ata := get_associated_token_address sender mint_address
    let destination_ata := get_associated_token_address recipient mint_address
    let instructions : List SolInstruction :=
      [createAtaIx payer recipient mint_address,
        tokenTransferIx source_ata destination_ata sender [sender] 1,
        closeAccountIx source_ata payer sender [sender]]
    let message := compileMessage payer blockhash instructions
    .ok { serialized_message := encodeMessage message
          signatures_or_signers_public_keys := [payer, sender]
          addresses :=
            { owner := sender
              recipient
              recipient_associated_token_account := destination_ata
              owner_associated_token_account := source_ata } }

/-- `impl CollectionBackend for UncompressedRef — fn retry_update_mint`:
deserialize the stored revision message, refresh only the blockhash, and
re-serialize. -/
def retry_update_mint (rpc : Rpc) (revision : UpdateRevisionRow) :
    Except String (TransactionResponse UpdateCollectionMintAddresses) :=
  let update_authority : Pubkey := revision.update_authority
  let metadata : Pubkey := revision.metadata
  let payer : Pubkey := revision.payer
  match decodeMessage revision.serialized_message with
  | none => .error "bincode deserialize failed"
  | some message =>
    match rpc.latestBlockhash with
    | .error e => .error e
    | .ok blockhash =>
      let message2 := { message with recentBlockhash := blockhash }
      .ok { serialized_message := encodeMessage message2
            signatures_or_signers_public_keys :=
              [payer, update_authority]
            addresses := { payer, metadata, update_authority } }

/-- `impl CollectionBackend for UncompressedRef — fn update`: a single
`update_metadata_accounts_v2` on the collection's stored metadata address,
with `collection: None` in the `DataV2`. -/
def update (cfg : SolanaCfg) (rpc : Rpc) (collection : CollectionRow)
    (txn : MetaplexMasterEditionTransaction) :
    Except String (TransactionResponse UpdateMasterEditionAddresses) :=
  match txn.master_edition with
  | none => .error "master edition message not found"
  | some me =>
    let payer := cfg.treasury_wallet_address
    let update_authority : Pubkey := me.owner_address
    let metadata : Pubkey := collection.metadata
    let instructions : List SolInstruction :=
      [updateMetadataV2Ix metadata update_authority
        "update-metadata-v2-collection-none"]
    match rpc.latestBlockhash with
    | .error e => .error e
    | .ok blockhash =>
      let message := compileMessage payer blockhash instructions
      .ok { serialized_message := encodeMessage message
            signatures_or_signers_public_keys := [payer, update_authority]
            addresses := { metadata, update_authority } }

/-- `impl CollectionBackend for UncompressedRef — fn update_mint`: a single
`update_metadata_accounts_v2` on the mint's derived metadata PDA, with the
verified collection set in the `DataV2`. -/
def update_mint (cfg : SolanaCfg) (rpc : Rpc) (collection : CollectionRow)
    (collection_mint : CollectionMintRow) (payload : UpdateSolanaMintPayload) :
    Except String (TransactionResponse UpdateCollectionMintAddresses) :=
  match payload.metadata with
  | none => .error "metadata message not found"
  | some md =>
    let payer := cfg.treasury_wallet_address
    let update_authority : Pubkey := md.owner_address
    let metadata := metadataPda collection_mint.mint
    match rpc.latestBlockhash with
    | .error e => .error e
    | .ok blockhash =>
      let instructions : List SolInstruction :=
        [updateMetadataV2Ix metadata update_authority
          ("update-metadata-v2-verified-collection:" ++ collection.mint)]
      let message := compileMessage payer blockhash instructions
      .ok { serialized_message := encodeMessage message
            signatures_or_signers_public_keys := [payer, update_authority]
            addresses := { payer, metadata, update_authority } }

/-- The instruction stream of `UncompressedRef::switch`: unverify the mint's
metadata out of the old collection, then set-and-verify it into the new
one. -/
def switchInstructions (payer metadata collectionAuthority collectionMint
    collectionMetadata collectionMasterEdition newCollectionAuthority
    newCollectionUpdateAuthority newCollectionMint newCollectionMetadata
    newCollectionMasterEdition : Pubkey) : List SolInstruction :=
  [unverifySizedCollectionItemIx metadata collectionAuthority payer
    collectionMint collectionMetadata collectionMasterEdition,
    setAndVerifySizedCollectionItemIx metadata newCollectionAuthority payer
      newCollectionUpdateAuthority newCollectionMint newCollectionMetadata
      newCollectionMasterEdition]

/-- `impl CollectionBackend for UncompressedRef — fn switch`: the returned
signer vector is `[payer, collection_authority]` — the OLD collection's
owner — although the `set_and_verify_sized_collection_item` instruction
also makes the NEW collection's owner a required signer. -/
def switch (cfg : SolanaCfg) (rpc : Rpc) (mint : CollectionMintRow)
    (collection : CollectionRow) (new_collection : CollectionRow) :
    Except String (TransactionResponse SwitchCollectionAddresses) :=
  let payer := cfg.treasury_wallet_address
  let metadata := metadataPda mint.mint
  let collection_authority : Pubkey := collection.owner
  let collection_metadata := metadataPda collection.mint
  let new_collection_metadata := metadataPda new_collection.mint
  let new_collection_authority : Pubkey := new_collection.owner
  let new_collection_update_authority : Pubkey :=
    new_collection.update_authority
  let instructions := switchInstructions payer metadata collection_authority
    collection.mint collection_metadata collection.master_edition
    new_collection_authority new_collection_update_authority
    new_collection.mint new_collection_metadata new_collection.master_edition
  match rpc.latestBlockhash with
  | .error e => .error e
  | .ok blockhash =>
    let message := compileMessage payer blockhash instructions
    .ok { serialized_message := encodeMessage message
          signatures_or_signers_public_keys := [payer, collection_authority]
          addresses := { payer, new_collection_authority } }

end UncompressedRef

namespace CompressedRef

/-- The account list of the Bubblegum `MintToCollectionV1` instruction built
by `CompressedRef::mint`, with the conditional verified-creator signer. -/
def mintToCollectionV1Accounts (cfg : SolanaCfg) (recipient owner
    collectionMint collectionMetadata collectionMasterEdition : Pubkey)
    (appendOwnerSigner : Bool) : List AccountMeta :=
  [⟨cfg.tree_authority, false, true⟩,
    ⟨recipient, false, false⟩,
    ⟨recipient, false, false⟩,
    ⟨cfg.merkle_tree, false, true⟩,
    ⟨cfg.treasury_wallet_address, true, false⟩,
    ⟨cfg.treasury_wallet_address, true, false⟩,
    ⟨owner, true, false⟩,
    ⟨bubblegumProgId, false, false⟩,
    ⟨collectionMint, false, false⟩,
    ⟨collectionMetadata, false, true⟩,
    ⟨collectionMasterEdition, false, false⟩,
    ⟨cfg.bubblegum_cpi_address, false, false⟩,
    ⟨noopProgId, false, false⟩,
    ⟨accountCompressionProgId, false, false⟩,
    ⟨tokenMetadataProgId, false, false⟩,
    ⟨systemProgramId, false, false⟩]
    ++ (if appendOwnerSigner then [⟨owner, true, false⟩] else [])

/-- `impl MintBackend<MintMetaplexMetadataTransaction,
MintCompressedMintV1Addresses> for CompressedRef — fn mint`. -/
def mint (cfg : SolanaCfg) (rpc : Rpc) (collection : CollectionRow)
    (txn : MintMetaplexMetadataTransaction) :
    Except String (TransactionResponse MintCompressedMintV1Addresses) :=
  match txn.metadata with
  | none => .error "metadata message not found"
  | some md =>
    let payer := cfg.treasury_wallet_address
    let recipient : Pubkey := txn.recipient_address
    let owner : Pubkey := md.owner_address
    let merkle_tree := cfg.merkle_tree
    let tree_authority := cfg.tree_authority
    let appendOwnerSigner :=
      md.creators.any (fun c => c.verified && c.address == owner)
    let accounts := mintToCollectionV1Accounts cfg recipient owner
      collection.mint collection.metadata collection.master_edition
      appendOwnerSigner
    let instructions : List SolInstruction :=
      [⟨bubblegumProgId, accounts, encStr "bubblegum-mint-to-collection-v1"⟩]
    match rpc.latestBlockhash with
    | .error e => .error e
    | .ok blockhash =>
      let message := compileMessage payer blockhash instructions
      .ok { serialized_message := encodeMessage message
            signatures_or_signers_public_keys := [payer, owner]
            addresses :=
              { leaf_owner := recipient
                tree_delegate := payer
                tree_authority
                merkle_tree } }

/-- `impl TransferBackend<compression_leafs::Model,
TransferCompressedMintV1Addresses> for CompressedRef — fn transfer`. -/
def transfer (cfg : SolanaCfg) (rpc : Rpc)
    (compression_leaf : CompressionLeafRow)
    (txn : TransferMetaplexAssetTransaction) :
    Except String (TransactionResponse TransferCompressedMintV1Addresses) :=
  let payer := cfg.treasury_wallet_address
  let recipient : Pubkey := txn.recipient_address
  let owner : Pubkey := txn.owner_address
  let tree_authority_address : Pubkey := compression_leaf.tree_authority
  let merkle_tree_address : Pubkey := compression_leaf.merkle_tree
  match compression_leaf.asset_id with
  | none => .error "asset id not found"
  | some asset_id =>
    match rpc.getAsset asset_id with
    | .error e => .error ("fetching asset from DAA: " ++ e)
    | .ok asset =>
      match rpc.getAssetProof asset_id with
      | .error e => .error ("fetching asset proof from DAA: " ++ e)
      | .ok asset_proof =>
        match asset.compression.data_hash with
        | none => .error "no data hash"
        | some data_hash =>
          match asset.compression.creator_hash with
          | none => .error "no creator hash"
          | some creator_hash =>
            let leaf_id := asset.compression.leaf_id
            let root := asset_proof.root
            if root.length ≠ 32 then .error "Invalid root hash"
            else if data_hash.length ≠ 32 then .error "Invalid data hash"
            else if creator_hash.length ≠ 32 then .error "Invalid creator hash"
            else
              let proofs : List AccountMeta :=
                asset_proof.proof.map (fun p => ⟨p, false, false⟩)
              let accounts : List AccountMeta :=
                [⟨tree_authority_address, false, true⟩,
                  ⟨owner, true, false⟩,
                  ⟨owner, false, false⟩,
                  ⟨recipient, false, false⟩,
                  ⟨merkle_tree_address, false, true⟩,
                  ⟨noopProgId, false, false⟩,
                  ⟨accountCompressionProgId, false, false⟩,
                  ⟨systemProgramId, false, false⟩]
                  ++ proofs
              let instructions : List SolInstruction :=
                [⟨bubblegumProgId, accounts,
                  encStr "bubblegum-transfer" ++ root ++ data_hash
                    ++ creator_hash ++ encNat leaf_id ++ encNat leaf_id⟩]
              match rpc.latestBlockhash with
              | .error e => .error e
              | .ok blockhash =>
                let message := compileMessage payer blockhash instructions
                .ok { serialized_message := encodeMessage message
                      signatures_or_signers_public_keys := [payer, owner]
                      addresses := { owner, recipient } }

end CompressedRef

namespace EditionRef

/-- The instruction stream of `EditionRef::mint`: create and initialize the
new edition mint, create the recipient's associated token account, mint one
token to it with the owner as the sole multisig signer, then mint the new
edition from the master edition via the collection's token account. -/
def mintInstructions (payer owner recipient newMintPub masterEditionPubkey
    existingTokenAccount metadata masterEditionMint : Pubkey)
    (rent edition : Nat) : List SolInstruction :=
  [createAccountIx payer newMintPub rent mintLen splTokenId,
    initializeMintIx newMintPub owner,
    createAtaIx payer recipient newMintPub,
    mintToIx newMintPub (get_associated_token_address recipient newMintPub)
      owner [owner] 1,
    mintNewEditionIx (metadataPda newMintPub) (masterEditionPda newMintPub)
      masterEditionPubkey newMintPub owner payer owner existingTokenAccount
      owner metadata masterEditionMint edition]

/-- `impl MintBackend<MintMetaplexEditionTransaction, MintEditionAddresses>
for EditionRef — fn mint`. -/
def mint (cfg : SolanaCfg) (rpc : Rpc) (newMintKp : Keypair)
    (collection : CollectionRow) (txn : MintMetaplexEditionTransaction) :
    Except String (TransactionResponse MintEditionAddresses) :=
  let payer := cfg.treasury_wallet_address
  let owner : Pubkey := txn.owner_address
  let master_edition_pubkey : Pubkey := collection.master_edition
  let master_edition_mint : Pubkey := collection.mint
  let existing_token_account : Pubkey := collection.associated_token_account
  let metadata : Pubkey := collection.metadata
  let recipient : Pubkey := txn.recipient_address
  let new_mint_pubkey := newMintKp.pub
  let added_token_account :=
    get_associated_token_address recipient new_mint_pubkey
  let edition_key := masterEditionPda new_mint_pubkey
  let metadata_key := metadataPda new_mint_pubkey
  match rpc.minRentExemption mintLen with
  | .error e => .error e
  | .ok rent =>
    let instructions := mintInstructions payer owner recipient
      new_mint_pubkey master_edition_pubkey existing_token_account metadata
      master_edition_mint rent txn.edition
    match rpc.latestBlockhash with
    | .error e => .error e
    | .ok blockhash =>
      let message := compileMessage payer blockhash instructions
      let serialized_message := encodeMessage message
      let mint_signature := signMessage newMintKp serialized_message
      .ok { serialized_message
            signatures_or_signers_public_keys :=
              [payer, mint_signature, owner]
            addresses :=
              { owner
                edition := edition_key
                mint := new_mint_pubkey
                metadata := metadata_key
                associated_token_account := added_token_account
                recipient } }

end EditionRef

/-! ## Event processor (`crate::events`) -/

/-- `crate::events::ProcessorErrorKind`. -/
inductive ProcessorErrorKind where
  | RecordNotFound
  | TransactionStatusNotFound
  | Solana (msg : String)
  | SendError
  | InvalidUuid
  | DbError
  | ParsePubkey
  | ParseString
  | AssetId (e : SolanaAssetIdError)
deriving DecidableEq, Repr

/-- `crate::events::EventKind`. -/
inductive EventKind where
  | CreateOpenDrop
  | MintOpenDrop
  | UpdateOpenDrop
  | RetryCreateOpenDrop
  | RetryMintOpenDrop
  | CreateEditionDrop
  | MintEditionDrop
  | UpdateEditionDrop
  | TransferAsset
  | RetryCreateEditionDrop
  | RetryMintEditionDrop
  | CreateCollection
  | RetryCreateCollection
  | UpdateCollection
  | MintToCollection
  | RetryMintToCollection
  | UpdateCollectionMint
  | RetryUpdateCollectionMint
  | SwitchMintCollection
deriving DecidableEq, Repr

/-- `proto::SolanaTransactionFailureReason`. -/
inductive SolanaTransactionFailureReason where
  | Assemble
  | Sign
  | Submit
deriving DecidableEq, Repr

/-- The outbound `SolanaNftEvents` union. The source has one protobuf
variant per (kind, stage) pair (`EventKind::into_sign_request`,
`into_success`, `into_failure` are kind-indexed bijections onto them); the
embedding carries the kind explicitly. -/
inductive SolanaNftEvent where
  | signingRequested (kind : EventKind) (tx : SolanaPendingTransaction)
  | submittedMint (kind : EventKind) (signature : String) (address : String)
  | submittedUpdate (kind : EventKind) (signature : String)
  | submittedTransfer (kind : EventKind) (signature : String)
  | failed (kind : EventKind) (reason : SolanaTransactionFailureReason)
  | updateMintOwner (mint_address sender recipient tx_signature : String)
deriving DecidableEq, Repr

/-- Modelled from the spec: the treasury protobuf's
`SolanaTransactionResult.status` enum (its generated code is not under
`src/`): `Pending = 0, Ok = 1, Failed = 2`; `from_i32` of any other value
is `None`. -/
inductive TransactionStatus where
  | Pending
  | Ok
  | Failed
deriving DecidableEq, Repr

/-- Modelled from the spec: `TransactionStatus::from_i32`. -/
def TransactionStatus.fromI32 (n : Int) : Option TransactionStatus :=
  if n = 0 then some .Pending
  else if n = 1 then some .Ok
  else if n = 2 then some .Failed
  else none

/-- `CollectionMint::find_by_id_with_collection`: inner join, so the mint is
returned only when its collection row exists, paired as `find_also_related`
returns it. -/
def Db.findMintWithCollection (db : Db) (id : Uuid) :
    Option (CollectionMintRow × Option CollectionRow) :=
  (db.findMint id).bind (fun m =>
    (db.findCollection m.collection_id).map (fun c => (m, some c)))

namespace Processor

/-- `EventKind::into_success`: build the `*Submitted` event for a submitted
transaction, looking up (and for compressed mints updating) the database.
Returns the event together with the possibly-updated database. -/
def into_success (kind : EventKind) (db : Db) (rpc : Rpc)
    (key : SolanaNftEventKey) (signature : String) :
    Except ProcessorErrorKind (SolanaNftEvent × Db) :=
  match kind with
  | .CreateEditionDrop =>
    match parseUuid key.id with
    | none => .error .InvalidUuid
    | some id =>
      match db.findCollection id with
      | none => .error .RecordNotFound
      | some collection =>
        .ok (.submittedMint .CreateEditionDrop signature collection.mint, db)
  | .CreateCollection =>
    match parseUuid key.id with
    | none => .error .InvalidUuid
    | some id =>
      match db.findCollection id with
      | none => .error .RecordNotFound
      | some collection =>
        .ok (.submittedMint .CreateCollection signature collection.mint, db)
  | .RetryCreateCollection =>
    match parseUuid key.id with
    | none => .error .InvalidUuid
    | some id =>
      match db.findCollection id with
      | none => .error .RecordNotFound
      | some collection =>
        .ok (.submittedMint .RetryCreateCollection signature collection.mint,
          db)
  | .UpdateCollection => .ok (.submittedUpdate .UpdateCollection signature, db)
  | .MintToCollection =>
    match parseUuid key.id with
    | none => .error .InvalidUuid
    | some id =>
      match db.findLeaf id with
      | some compression_leaf =>
        match extract_compression_nonce rpc signature with
        | .error e => .error (.AssetId e)
        | .ok nonce =>
          let asset_id := get_asset_id compression_leaf.merkle_tree nonce
          let leaf2 := { compression_leaf with asset_id := some asset_id }
          .ok (.submittedMint .MintToCollection signature asset_id,
            db.updateLeaf leaf2)
      | none =>
        match db.findMint id with
        | none => .error .RecordNotFound
        | some collection_mint =>
          .ok (.submittedMint .MintToCollection signature collection_mint.mint,
            db)
  | .MintEditionDrop =>
    match parseUuid key.id with
    | none => .error .InvalidUuid
    | some id =>
      match db.findMint id with
      | none => .error .RecordNotFound
      | some collection_mint =>
        .ok (.submittedMint .MintEditionDrop signature collection_mint.mint,
          db)
  | .UpdateEditionDrop =>
    .ok (.submittedUpdate .UpdateEditionDrop signature, db)
  | .TransferAsset => .ok (.submittedTransfer .TransferAsset signature, db)
  | .RetryCreateEditionDrop =>
    match parseUuid key.id with
    | none => .error .InvalidUuid
    | some id =>
      match db.findCollection id with
      | none => .error .RecordNotFound
      | some collection =>
        .ok (.submittedMint .RetryCreateEditionDrop signature collection.mint,
          db)
  | .RetryMintEditionDrop =>
    match parseUuid key.id with
    | none => .error .InvalidUuid
    | some id =>
      match db.findMint id with
      | none => .error .RecordNotFound
      | some collection_mint =>
        .ok (.submittedMint .RetryMintEditionDrop signature
          collection_mint.mint, db)
  | .RetryMintToCollection =>
    match parseUuid key.id with
    | none => .error .InvalidUuid
    | some id =>
      match db.findMint id with
      | none => .error .RecordNotFound
      | some collection_mint =>
        .ok (.submittedMint .RetryMintToCollection signature
          collection_mint.mint, db)
  | .UpdateCollectionMint =>
    .ok (.submittedUpdate .UpdateCollectionMint signature, db)
  | .RetryUpdateCollectionMint =>
    .ok (.submittedUpdate .RetryUpdateCollectionMint signature, db)
  | .SwitchMintCollection =>
    .ok (.submittedUpdate .SwitchMintCollection signature, db)
  | .CreateOpenDrop =>
    match parseUuid key.id with
    | none => .error .InvalidUuid
    | some id =>
      match db.findCollection id with
      | none => .error .RecordNotFound
      | some collection =>
        .ok (.submittedMint .CreateOpenDrop signature collection.mint, db)
  | .MintOpenDrop =>
    match parseUuid key.id with
    | none => .error .InvalidUuid
    | some id =>
      match db.findMint id with
      | none => .error .RecordNotFound
      | some collection_mint =>
        .ok (.submittedMint .MintOpenDrop signature collection_mint.mint, db)
  | .UpdateOpenDrop => .ok (.submittedUpdate .UpdateOpenDrop signature, db)
  | .RetryCreateOpenDrop =>
    match parseUuid key.id with
    | none => .error .InvalidUuid
    | some id =>
      match db.findCollection id with
      | none => .error .RecordNotFound
      | some collection =>
        .ok (.submittedMint .RetryCreateOpenDrop signature collection.mint, db)
  | .RetryMintOpenDrop =>
    match parseUuid key.id with
    | none => .error .InvalidUuid
    | some id =>
      match db.findMint id with
      | none => .error .RecordNotFound
      | some collection_mint =>
        .ok (.submittedMint .RetryMintOpenDrop signature collection_mint.mint,
          db)

/-- `Processor::process_nft`: emit the sign request on assembly success,
the `Failed(Assemble)` event on assembly failure — always keyed by the
incoming event key. -/
def process_nft (kind : EventKind) (key : SolanaNftEventKey)
    (assembled : Except ProcessorErrorKind SolanaPendingTransaction) :
    List (SolanaNftEventKey × SolanaNftEvent) :=
  match assembled with
  | .ok tx => [(key, .signingRequested kind tx)]
  | .error _ => [(key, .failed kind .Assemble)]

/-- The observable outcome of `Processor::process_treasury`: the database
after the run, the events emitted to the producer, the error the function
returned (if any), and the transactions handed to `send_transaction`. -/
structure TreasuryOutcome where
  db : Db
  emitted : List (SolanaNftEventKey × SolanaNftEvent)
  err : Option ProcessorErrorKind
  sent : List SolanaTx
deriving DecidableEq, Repr

/-- `Processor::process_treasury`. -/
def process_treasury (rpc : Rpc) (db : Db) (kind : EventKind)
    (key : SolanaNftEventKey) (res : SolanaTransactionResult) :
    TreasuryOutcome :=
  match TransactionStatus.fromI32 res.status with
  | none => ⟨db, [], some .TransactionStatusNotFound, []⟩
  | some status =>
    if status = .Failed then
      ⟨db, [(key, .failed kind .Sign)], none, []⟩
    else
      match submit_transaction rpc res with
      | (.ok sig, sent) =>
        match into_success kind db rpc key sig with
        | .ok (event, db2) => ⟨db2, [(key, event)], none, sent⟩
        | .error e => ⟨db, [], some e, sent⟩
      | (.error _, sent) =>
        ⟨db, [(key, .failed kind .Submit)], none, sent⟩

/-- `Processor::transfer_asset`: dispatch on which row exists for the
payload's `collection_mint_id`. -/
def transfer_asset (cfg : SolanaCfg) (rpc : Rpc) (db : Db)
    (payload : TransferMetaplexAssetTransaction) :
    Except ProcessorErrorKind SolanaPendingTransaction :=
  match parseUuid payload.collection_mint_id with
  | none => .error .InvalidUuid
  | some collection_mint_id =>
    match db.findMint collection_mint_id with
    | some collection_mint =>
      match UncompressedRef.transfer cfg rpc collection_mint payload with
      | .error e => .error (.Solana e)
      | .ok tx => .ok tx.toPending
    | none =>
      match db.findLeaf collection_mint_id with
      | none => .error .RecordNotFound
      | some compression_leaf =>
        match CompressedRef.transfer cfg rpc compression_leaf payload with
        | .error e => .error (.Solana e)
        | .ok tx => .ok tx.toPending

/-- `Processor::retry_mint_to_collection`, generic in the mint backend the
call site passes (the source always passes `UncompressedRef`). -/
def retry_mint_to_collection
    (backend : CollectionRow → MintMetaplexMetadataTransaction →
      Except String (TransactionResponse MintMetaplexAddresses))
    (db : Db) (key : SolanaNftEventKey)
    (payload : MintMetaplexMetadataTransaction) :
    Except ProcessorErrorKind (SolanaPendingTransaction × Db) :=
  match parseUuid key.id with
  | none => .error .InvalidUuid
  | some id =>
    match db.findMintWithCollection id with
    | none => .error .RecordNotFound
    | some (collection_mint, ocol) =>
      match ocol with
      | none => .error .RecordNotFound
      | some collection =>
        match backend collection payload with
        | .error e => .error (.Solana e)
        | .ok tx =>
          let m2 := { collection_mint with
            mint := tx.addresses.mint
            owner := tx.addresses.recipient
            associated_token_account :=
              tx.addresses.associated_token_account }
          .ok (tx.toPending, db.updateMintRow m2)

/-- The `Processor::process` arm for `SolanaRetryMintToCollection` /
`SolanaRetryMintOpenDrop`: the backend is `UncompressedRef` unconditionally. -/
def process_retry_mint_to_collection (cfg : SolanaCfg) (rpc : Rpc)
    (mintKp : Keypair) (db : Db) (key : SolanaNftEventKey)
    (payload : MintMetaplexMetadataTransaction) :
    Except ProcessorErrorKind (SolanaPendingTransaction × Db) :=
  retry_mint_to_collection (UncompressedRef.mint cfg rpc mintKp) db key payload

/-- `Processor::retry_update_collection_mint`: look up the stored revision
and rebuild via `retry_update_mint`. -/
def retry_update_collection_mint (rpc : Rpc) (db : Db)
    (key : SolanaNftEventKey) :
    Except ProcessorErrorKind SolanaPendingTransaction :=
  match parseUuid key.id with
  | none => .error .InvalidUuid
  | some id =>
    match db.findRevision id with
    | none => .error .RecordNotFound
    | some revision =>
      match UncompressedRef.retry_update_mint rpc revision with
      | .error e => .error (.Solana e)
      | .ok tx => .ok tx.toPending

end Processor

/-! ## Indexer (`indexer/src/processor.rs`) -/

/-- One outer instruction of a gRPC-indexed transaction message: a program id
index and account indexes into the account-key table, plus raw data. -/
structure SplInstruction where
  program_id_index : Nat
  accounts : List Nat
  data : List Nat
deriving DecidableEq, Repr

/-- The instruction list of an indexed transaction's message. -/
structure SplMessage where
  instructions : List SplInstruction
deriving DecidableEq, Repr

/-- `spl_token::instruction::TokenInstruction` restricted to what the indexer
distinguishes: `Transfer` (tag 3), `TransferChecked` (tag 12), and any other
valid instruction (tags 0–24, payload not modelled — the indexer ignores
them). -/
inductive TokenInstruction where
  | transfer (amount : Nat)
  | transferChecked (amount : Nat) (decimals : Nat)
  | otherIns (tag : Nat)
deriving DecidableEq, Repr

/-- Read a little-endian u64 from the front of a byte list. -/
def readU64 : List Nat → Option (Nat × List Nat)
  | b0 :: b1 :: b2 :: b3 :: b4 :: b5 :: b6 :: b7 :: r =>
    some (b0 + 256 * (b1 + 256 * (b2 + 256 * (b3 + 256 * (b4 + 256 *
      (b5 + 256 * (b6 + 256 * b7)))))), r)
  | _ => none

/-- `TokenInstruction::unpack`. -/
def TokenInstruction.unpack (d : List Nat) : Option TokenInstruction :=
  match d with
  | 3 :: rest => (readU64 rest).map (fun p => .transfer p.1)
  | 12 :: rest =>
    match readU64 rest with
    | some (amount, decimals :: _) => some (.transferChecked amount decimals)
    | _ => none
  | tag :: _ => if tag ≤ 24 then some (.otherIns tag) else none
  | [] => none

/-- The `transfer_info` match of `process_spl_token_transaction`:
`TransferChecked{amount} ↦ (amount, 2)`, `Transfer{amount} ↦ (amount, 1)`. -/
def transferInfoOf : TokenInstruction → Option (Nat × Nat)
  | .transferChecked amount _ => some (amount, 2)
  | .transfer amount => some (amount, 1)
  | _ => none

namespace Indexer

/-- The observable outcome of one `process_spl_token_transaction` run. -/
structure SplOutcome where
  db : Db
  emitted : List (SolanaNftEventKey × SolanaNftEvent)
  err : Option String
deriving DecidableEq, Repr

/-- The instruction loop of `Processor::process_spl_token_transaction`.
An out-of-range account index models the source's slice-index panic as an
error outcome. -/
def process_spl_go (rpc : Rpc) (program_account_index : Nat)
    (keys : List Pubkey) (sig : String) (db : Db)
    (emitted : List (SolanaNftEventKey × SolanaNftEvent)) :
    List SplInstruction → SplOutcome
  | [] => ⟨db, emitted, none⟩
  | ins :: rest =>
    if ins.program_id_index ≠ program_account_index then
      process_spl_go rpc program_account_index keys sig db emitted rest
    else
      match TokenInstruction.unpack ins.data with
      | none => ⟨db, emitted, some "token instruction unpack failed"⟩
      | some tkn =>
        match transferInfoOf tkn with
        | none =>
          process_spl_go rpc program_account_index keys sig db emitted rest
        | some (amount, destination_ata_index) =>
          if amount = 1 then
            match ins.accounts.get? 0 with
            | none => ⟨db, emitted, some "account index out of range"⟩
            | some source_account_index =>
              match keys.get? source_account_index with
              | none => ⟨db, emitted, some "key index out of range"⟩
              | some source =>
                match db.findMintByAta source with
                | none => ⟨db, emitted, none⟩
                | some mintRow =>
                  match ins.accounts.get? destination_ata_index with
                  | none => ⟨db, emitted, some "account index out of range"⟩
                  | some destination_account_index =>
                    match keys.get? destination_account_index with
                    | none => ⟨db, emitted, some "key index out of range"⟩
                    | some destination =>
                      match rpc.getAccount destination with
                      | .error _ => ⟨db, emitted, some "account fetch failed"⟩
                      | .ok destination_tkn_act =>
                        let new_owner := destination_tkn_act.owner
                        let db2 := db.updateMintRow
                          { mintRow with
                            owner := new_owner
                            associated_token_account := destination }
                        let ev :=
                          ((⟨mintRow.id, "", ""⟩ : SolanaNftEventKey),
                            SolanaNftEvent.updateMintOwner
                              destination_tkn_act.mint mintRow.owner
                              new_owner sig)
                        process_spl_go rpc program_account_index keys sig
                          db2 (emitted ++ [ev]) rest
          else
            process_spl_go rpc program_account_index keys sig db emitted rest

/-- `Processor::process_spl_token_transaction`. -/
def process_spl_token_transaction (rpc : Rpc) (db : Db)
    (program_account_index : Nat) (keys : List Pubkey) (sig : String)
    (message : SplMessage) : SplOutcome :=
  process_spl_go rpc program_account_index keys sig db [] message.instructions

end Indexer

/-! ## Shared helper lemmas -/

/-- Replacing the found row (same primary key) makes `find?` return the
replacement. -/
theorem find_map_replace {α : Type} (idOf : α → String) (l : List α)
    (key : String) (a b : α)
    (hfind : l.find? (fun x => idOf x == key) = some a)
    (hb : idOf b = idOf a) :
    (l.map (fun x => if idOf x == idOf b then b else x)).find?
      (fun x => idOf x == key) = some b := by
  induction l with
  | nil => simp at hfind
  | cons c l ih =>
    by_cases hc : (idOf c == key) = true
    · rw [List.find?_cons_of_pos (p := fun x => idOf x == key) _ hc] at hfind
      have hca : c = a := by injection hfind
      subst hca
      have hck : idOf c = key := by simpa [beq_iff_eq] using hc
      have hcbeq : (idOf c == idOf b) = true := by
        simp [beq_iff_eq, hb, hck]
      have hbk : (idOf b == key) = true := by simp [beq_iff_eq, hb, hck]
      simp only [List.map_cons]
      rw [if_pos hcbeq, List.find?_cons_of_pos (p := fun x => idOf x == key) _ hbk]
    · rw [List.find?_cons_of_neg (p := fun x => idOf x == key) _ hc] at hfind
      have hak : idOf a = key := by
        have h2 := List.find?_some hfind
        simpa [beq_iff_eq] using h2
      have hck : ¬ idOf c = key := by simpa [beq_iff_eq] using hc
      have hcb : ¬ ((idOf c == idOf b) = true) := by
        simp only [beq_iff_eq, hb, hak]
        exact hck
      simp only [List.map_cons]
      rw [if_neg hcb, List.find?_cons_of_neg (p := fun x => idOf x == key) _ hc]
      exact ih hfind

/-- Whether an outbound event is a `*Submitted` event carrying the given
signature. -/
def SolanaNftEvent.isSubmittedWith (e : SolanaNftEvent) (sig : String) : Bool :=
  match e with
  | .submittedMint _ s _ => s == sig
  | .submittedUpdate _ s => s == sig
  | .submittedTransfer _ s => s == sig
  | _ => false

/-- Every event `into_success` produces is a `*Submitted` event carrying the
submitted signature. -/
theorem into_success_submittedWith (kind : EventKind) (db : Db) (rpc : Rpc)
    (key : SolanaNftEventKey) (sig : String) (event : SolanaNftEvent)
    (db2 : Db)
    (h : Processor.into_success kind db rpc key sig = .ok (event, db2)) :
    event.isSubmittedWith sig = true := by
  cases kind <;>
    simp only [Processor.into_success] at h <;>
    (repeat' split at h) <;>
  first
  | (simp at h
     done)
  | (simp only [Except.ok.injEq, Prod.mk.injEq] at h
     obtain ⟨h1, h2⟩ := h
     subst h1
     simp [SolanaNftEvent.isSubmittedWith])

/-! ## Claim theorems -/

/-- C1: For every intent message on the NFT topic whose event is one of the
handled kinds, the processor emits exactly one outbound event keyed by the
same `(id, user_id, project_id)`: if assembly succeeds, exactly one
`K-SigningRequested` event carrying the pending transaction; if assembly
fails for any reason, exactly one `K-Failed` event with reason `Assemble`
and never a `SigningRequested` event. (`process_nft` is parametric in the
assembly outcome exactly as the source function is in its future
argument; every handled dispatch arm of `Processor::process` funnels into
it with its kind.) -/
theorem c1_process_nft_exactly_one_event (kind : EventKind)
    (key : SolanaNftEventKey)
    (assembled : Except ProcessorErrorKind SolanaPendingTransaction) :
    (Processor.process_nft kind key assembled).length = 1
    ∧ (∀ p ∈ Processor.process_nft kind key assembled, p.1 = key)
    ∧ (∀ tx, assembled = .ok tx →
        Processor.process_nft kind key assembled
          = [(key, .signingRequested kind tx)])
    ∧ (∀ e, assembled = .error e →
        Processor.process_nft kind key assembled
          = [(key, .failed kind .Assemble)]
        ∧ ∀ tx, (key, SolanaNftEvent.signingRequested kind tx)
            ∉ Processor.process_nft kind key assembled) := by
  cases assembled with
  | ok tx =>
    refine ⟨rfl, ?_, ?_, ?_⟩
    · intro p hp
      simp [Processor.process_nft] at hp
      simp [hp]
    · intro tx2 h
      injection h with h
      subst h
      rfl
    · intro e h
      exact absurd h (by simp)
  | error e =>
    refine ⟨rfl, ?_, ?_, ?_⟩
    · intro p hp
      simp [Processor.process_nft] at hp
      simp [hp]
    · intro tx2 h
      exact absurd h (by simp)
    · intro e2 h
      refine ⟨rfl, ?_⟩
      intro tx hmem
      simp [Processor.process_nft] at hmem

/-- C10: A signed-topic `SolanaTransactionResult` with status `Pending` (0)
is treated exactly as status `Ok` (1) — the whole observable outcome
(database, emitted events, error, submitted transactions) coincides; the
only status value whose run emits the `Failed(Sign)` event is `Failed` (2);
and a decodable `Pending` result is rebuilt and submitted to the RPC with
whatever signatures it carries. -/
theorem c10_pending_status_treated_as_ok (rpc : Rpc) (db : Db)
    (kind : EventKind) (key : SolanaNftEventKey)
    (m : Option (List Nat)) (sigs : List String) :
    Processor.process_treasury rpc db kind key ⟨0, m, sigs⟩
      = Processor.process_treasury rpc db kind key ⟨1, m, sigs⟩
    ∧ (∀ n : Int,
        (Processor.process_treasury rpc db kind key ⟨n, m, sigs⟩).emitted
            = [(key, .failed kind .Sign)] → n = 2)
    ∧ (∀ bytes msg, m = some bytes → decodeMessage bytes = some msg →
        (Processor.process_treasury rpc db kind key ⟨0, m, sigs⟩).sent
          = [⟨sigs, msg⟩]) := by
  refine ⟨?_, ?_, ?_⟩
  · rfl
  · intro n hn
    by_cases h2 : n = 2
    · exact h2
    exfalso
    simp only [Processor.process_treasury] at hn
    rcases hfrom : TransactionStatus.fromI32 (n : Int) with _ | st
    · rw [hfrom] at hn
      simp at hn
    · have hne : st ≠ TransactionStatus.Failed := by
        simp only [TransactionStatus.fromI32] at hfrom
        by_cases h0 : n = 0
        · simp [h0] at hfrom
          simp [← hfrom]
        by_cases h1 : n = 1
        · simp [h0, h1] at hfrom
          simp [← hfrom]
        simp [h0, h1, h2] at hfrom
      rw [hfrom] at hn
      dsimp only at hn
      rw [if_neg hne] at hn
      rcases hsub : submit_transaction rpc ⟨n, m, sigs⟩ with ⟨r, sent⟩
      rw [hsub] at hn
      cases r with
      | error e =>
        dsimp only at hn
        simp at hn
      | ok sig =>
        dsimp only at hn
        rcases hins : Processor.into_success kind db rpc key sig
          with e | ⟨event, db2⟩
        · rw [hins] at hn
          simp at hn
        · rw [hins] at hn
          have hev : event = SolanaNftEvent.failed kind .Sign := by
            simpa using hn
          have hsw := into_success_submittedWith kind db rpc key sig event
            db2 hins
          rw [hev] at hsw
          simp [SolanaNftEvent.isSubmittedWith] at hsw
  · intro bytes msg hb hdec
    subst hb
    rcases hsend : rpc.sendTransaction ⟨sigs, msg⟩ with e | s
    · simp [Processor.process_treasury, TransactionStatus.fromI32,
        submit_transaction, hdec, hsend]
    · rcases hins : Processor.into_success kind db rpc key s
        with e2 | ⟨event, db2⟩ <;>
      simp [Processor.process_treasury, TransactionStatus.fromI32,
        submit_transaction, hdec, hsend, hins]

/-- C2 (amended): For every signed-topic `SolanaTransactionResult` with a
decodable status: if the status is `Failed` the processor emits exactly
`K-Failed(Sign)` and never submits (nothing reaches `send_transaction`);
otherwise it rebuilds and submits the transaction: a submission error emits
exactly `K-Failed(Submit)`; a successful submission emits `K-Submitted`
carrying the returned signature **provided** the success-event assembly
(`into_success`: DB lookups and, for compressed mints, nonce extraction)
succeeds — when it fails, no outbound event is emitted and the error is
returned. -/
theorem c2_treasury_result_routing (rpc : Rpc) (db : Db) (kind : EventKind)
    (key : SolanaNftEventKey) (res : SolanaTransactionResult)
    (st : TransactionStatus)
    (hst : TransactionStatus.fromI32 res.status = some st) :
    (st = .Failed →
      Processor.process_treasury rpc db kind key res
        = ⟨db, [(key, .failed kind .Sign)], none, []⟩)
    ∧ (st ≠ .Failed →
        (∀ e sent, submit_transaction rpc res = (.error e, sent) →
          Processor.process_treasury rpc db kind key res
            = ⟨db, [(key, .failed kind .Submit)], none, sent⟩)
        ∧ (∀ sig sent, submit_transaction rpc res = (.ok sig, sent) →
            (∀ event db2,
              Processor.into_success kind db rpc key sig = .ok (event, db2) →
                Processor.process_treasury rpc db kind key res
                  = ⟨db2, [(key, event)], none, sent⟩
                ∧ event.isSubmittedWith sig = true)
            ∧ (∀ e, Processor.into_success kind db rpc key sig = .error e →
                Processor.process_treasury rpc db kind key res
                  = ⟨db, [], some e, sent⟩))) := by
  constructor
  · intro hf
    subst hf
    simp only [Processor.process_treasury, hst]
    rfl
  · intro hne
    constructor
    · intro e sent hsub
      simp only [Processor.process_treasury, hst]
      rw [if_neg hne, hsub]
    · intro sig sent hsub
      constructor
      · intro event db2 hins
        refine ⟨?_, into_success_submittedWith kind db rpc key sig event db2
          hins⟩
        simp only [Processor.process_treasury, hst]
        rw [if_neg hne, hsub]
        dsimp only
        rw [hins]
      · intro e hins
        simp only [Processor.process_treasury, hst]
        rw [if_neg hne, hsub]
        dsimp only
        rw [hins]

/-! ### Fixtures for witnesses and counterexamples -/

/-- A canonical 36-character UUID string. -/
def uuidA : String := "aaaaaaaa-aaaa-aaaa-aaaa-aaaaaaaaaaaa"

/-- A second canonical 36-character UUID string. -/
def uuidB : String := "bbbbbbbb-bbbb-bbbb-bbbb-bbbbbbbbbbbb"

def keyW : SolanaNftEventKey := ⟨uuidA, "user-1", "project-1"⟩

def msgW : SolMessage := ⟨⟨2, 1, 0⟩, ["payer", "auth"], "blockhash-1", []⟩

/-- An oracle whose submission succeeds and whose other calls are inert. -/
def rpcW : Rpc :=
  { latestBlockhash := .ok "blockhash-2"
    minRentExemption := fun _ => .ok 1000
    sendTransaction := fun _ => .ok "sig-ok"
    getTransaction := fun _ => .error "unused"
    decodeCompressionEvent := fun _ => .error .Base58
    getAsset := fun _ => .error "unused"
    getAssetProof := fun _ => .error "unused"
    getAccount := fun _ => .error "unused" }

def dbEmpty : Db := ⟨[], [], [], []⟩

def resW : SolanaTransactionResult :=
  ⟨1, some (encodeMessage msgW), ["s1", "s2"]⟩

/-- Witness for C2's theorem at a concrete input: `UpdateCollection`, status
`Ok`, decodable message, submission succeeding. -/
theorem c2_treasury_result_routing_witness :
    Processor.process_treasury rpcW dbEmpty .UpdateCollection keyW resW
      = ⟨dbEmpty,
          [(keyW, .submittedUpdate .UpdateCollection "sig-ok")],
          none, [⟨["s1", "s2"], msgW⟩]⟩ := by
  have h := c2_treasury_result_routing rpcW dbEmpty .UpdateCollection keyW
    resW .Ok (by decide)
  have hsub : submit_transaction rpcW resW
      = (.ok "sig-ok", [⟨["s1", "s2"], msgW⟩]) := by
    simp [submit_transaction, resW, rpcW, decodeMessage_encodeMessage]
  have h2 := ((h.2 (by decide)).2 "sig-ok" [⟨["s1", "s2"], msgW⟩] hsub).1
    (.submittedUpdate .UpdateCollection "sig-ok") dbEmpty rfl
  exact h2.1

/-- C2 counterexample (the claim as frozen): a `CreateCollection` result
whose submission succeeds (the RPC returns a signature) but for which **no**
`K-Submitted` event is emitted — the success-event assembly fails with
`RecordNotFound` on the empty database, so the run emits nothing at all,
contradicting "emitting K-Submitted with the returned base58 signature on
success". -/
theorem c2_counterexample :
    (submit_transaction rpcW resW).1 = .ok "sig-ok"
    ∧ Processor.process_treasury rpcW dbEmpty .CreateCollection keyW resW
        = ⟨dbEmpty, [], some .RecordNotFound, [⟨["s1", "s2"], msgW⟩]⟩ := by
  constructor
  · simp [submit_transaction, resW, rpcW, decodeMessage_encodeMessage]
  · have hsub : submit_transaction rpcW resW
        = (.ok "sig-ok", [⟨["s1", "s2"], msgW⟩]) := by
      simp [submit_transaction, resW, rpcW, decodeMessage_encodeMessage]
    simp only [Processor.process_treasury]
    rw [show TransactionStatus.fromI32 resW.status = some .Ok from by decide]
    dsimp only
    rw [if_neg (by decide), hsub]
    dsimp only
    rw [show Processor.into_success .CreateCollection dbEmpty rpcW keyW
      "sig-ok" = .error .RecordNotFound from rfl]

/-- The leaf row with its `asset_id` set (the update the compressed
`MintToCollection` success path writes). -/
def CompressionLeafRow.withAssetId (leaf : CompressionLeafRow) (a : String) :
    CompressionLeafRow :=
  { leaf with asset_id := some a }

/-- C3 (amended, `MintToCollection` only): for a compressed
`MintToCollection` whose submission succeeded and whose nonce extraction
succeeds, the `compression_leafs` row for the event id is updated so that
`asset_id = Some(get_asset_id(merkle_tree, nonce))` and the `Submitted`
event carries that asset id as its address; for an uncompressed mint (no
leaf row) the `Submitted` event carries the `collection_mints` row's mint
address and the database is unchanged. (`MintOpenDrop` is *not* covered:
its success arm only consults `collection_mints` — see the
counterexample.) -/
theorem c3_mint_to_collection_asset_id (db : Db) (rpc : Rpc)
    (key : SolanaNftEventKey) (sig : String) (id : Uuid)
    (hid : parseUuid key.id = some id) :
    (∀ leaf nonce, db.findLeaf id = some leaf →
        extract_compression_nonce rpc sig = .ok nonce →
        Processor.into_success .MintToCollection db rpc key sig
          = .ok (.submittedMint .MintToCollection sig
              (get_asset_id leaf.merkle_tree nonce),
            db.updateLeaf
              (leaf.withAssetId (get_asset_id leaf.merkle_tree nonce)))
        ∧ (db.updateLeaf
              (leaf.withAssetId (get_asset_id leaf.merkle_tree nonce))).findLeaf
              id
            = some (leaf.withAssetId (get_asset_id leaf.merkle_tree nonce)))
    ∧ (db.findLeaf id = none → ∀ mintRow, db.findMint id = some mintRow →
        Processor.into_success .MintToCollection db rpc key sig
          = .ok (.submittedMint .MintToCollection sig mintRow.mint, db)) := by
  constructor
  · intro leaf nonce hleaf hx
    constructor
    · simp only [Processor.into_success, hid]
      try dsimp only
      rw [hleaf]
      try dsimp only
      rw [hx]
      rfl
    · simp only [Db.findLeaf, Db.updateLeaf]
      exact find_map_replace CompressionLeafRow.id db.compression_leafs id
        leaf (leaf.withAssetId (get_asset_id leaf.merkle_tree nonce)) hleaf
        rfl
  · intro hnone mintRow hm
    simp only [Processor.into_success, hid]
    try dsimp only
    rw [hnone]
    try dsimp only
    rw [hm]

def leafA : CompressionLeafRow :=
  ⟨uuidA, uuidB, "tree-1", "tree-auth-1", "tree-del-1", "leaf-owner-1",
    none, 0⟩

def db3 : Db := ⟨[], [], [leafA], []⟩

/-- An oracle whose confirmed transaction carries a decodable change-log
record at inner-instruction group 0, index 3, with leaf index 42. -/
def rpc3 : Rpc :=
  { rpcW with
    getTransaction := fun _ =>
      .ok ⟨some ⟨some [⟨[.parsed, .parsed, .parsed, .compiled "noop-data"]⟩]⟩⟩
    decodeCompressionEvent := fun _ => .ok (.changeLog (.v1 42)) }

/-- Witness for C3's theorem at a concrete input. -/
theorem c3_mint_to_collection_asset_id_witness :
    Processor.into_success .MintToCollection db3 rpc3 keyW "sig3"
      = .ok (.submittedMint .MintToCollection "sig3"
          (get_asset_id leafA.merkle_tree 42),
        db3.updateLeaf
          (leafA.withAssetId (get_asset_id leafA.merkle_tree 42)))
    ∧ (db3.updateLeaf
          (leafA.withAssetId (get_asset_id leafA.merkle_tree 42))).findLeaf
          uuidA
        = some (leafA.withAssetId (get_asset_id leafA.merkle_tree 42)) :=
  (c3_mint_to_collection_asset_id db3 rpc3 keyW "sig3" uuidA rfl).1
    leafA 42 rfl rfl

def res3 : SolanaTransactionResult := ⟨1, some (encodeMessage msgW), ["s1"]⟩

/-- C3 counterexample (the claim as frozen): a compressed `MintOpenDrop`
whose submission succeeded and whose nonce extraction would succeed (it
returns 42) nevertheless results in `RecordNotFound`: the `MintOpenDrop`
success arm looks up only `collection_mints`, so no `Submitted` event is
emitted and the leaf row's `asset_id` stays null — the claim's
"(or MintOpenDrop)" clause is false on the code. -/
theorem c3_counterexample :
    extract_compression_nonce rpc3 "sig-ok" = .ok 42
    ∧ Processor.process_treasury rpc3 db3 .MintOpenDrop keyW res3
        = ⟨db3, [], some .RecordNotFound, [⟨["s1"], msgW⟩]⟩ := by
  constructor
  · rfl
  · have hsub : submit_transaction rpc3 res3
        = (.ok "sig-ok", [⟨["s1"], msgW⟩]) := by
      simp [submit_transaction, res3, rpc3, rpcW, decodeMessage_encodeMessage]
    simp only [Processor.process_treasury]
    rw [show TransactionStatus.fromI32 res3.status = some .Ok from by decide]
    dsimp only
    rw [if_neg (by decide), hsub]
    dsimp only
    rw [show Processor.into_success .MintOpenDrop db3 rpc3 keyW
      "sig-ok" = .error .RecordNotFound from rfl]

/-- C4 (amended): for a compressed mint whose confirmed transaction has
fewer than 4 inner instructions in inner-instruction group 0, nonce
extraction yields `AssetIdError::NoInnerInstruction`; the processor then
returns that error from the success path, so **no** `Submitted` event is
emitted (the run emits nothing), and the `CompressionLeaf` row's `asset_id`
remains null (the database is unchanged). -/
theorem c4_short_inner_instructions (rpc : Rpc) (db : Db)
    (key : SolanaNftEventKey) (sig : String) (id : Uuid)
    (leaf : CompressionLeafRow) (res : SolanaTransactionResult)
    (sent : List SolanaTx) (resp : TxWithMeta) (meta : TxMeta)
    (iis : List UiInnerInstructionsW) (grp : UiInnerInstructionsW)
    (hid : parseUuid key.id = some id)
    (hleaf : db.findLeaf id = some leaf)
    (htx : rpc.getTransaction sig = .ok resp)
    (hmeta : resp.meta = some meta)
    (hinner : meta.inner_instructions = some iis)
    (hgrp : iis.get? 0 = some grp)
    (hlen : grp.instructions.length < 4)
    (hsub : submit_transaction rpc res = (.ok sig, sent))
    (hstatus : TransactionStatus.fromI32 res.status = some .Ok) :
    extract_compression_nonce rpc sig = .error .NoInnerInstruction
    ∧ Processor.into_success .MintToCollection db rpc key sig
        = .error (.AssetId .NoInnerInstruction)
    ∧ Processor.process_treasury rpc db .MintToCollection key res
        = ⟨db, [], some (.AssetId .NoInnerInstruction), sent⟩
    ∧ ((Processor.process_treasury rpc db .MintToCollection key res).db).findLeaf
        id = some leaf := by
  have hx : extract_compression_nonce rpc sig
      = .error .NoInnerInstruction := by
    simp only [extract_compression_nonce, htx]
    try dsimp only
    rw [hmeta]
    try dsimp only
    rw [hinner]
    try dsimp only
    rw [hgrp]
    try dsimp only
    rw [show grp.instructions.get? 3 = none from
      List.get?_eq_none.mpr (by omega)]
  have hins : Processor.into_success .MintToCollection db rpc key sig
      = .error (.AssetId .NoInnerInstruction) := by
    simp only [Processor.into_success, hid]
    try dsimp only
    rw [hleaf]
    try dsimp only
    rw [hx]
  have hpt : Processor.process_treasury rpc db .MintToCollection key res
      = ⟨db, [], some (.AssetId .NoInnerInstruction), sent⟩ := by
    simp only [Processor.process_treasury, hstatus]
    try dsimp only
    rw [if_neg (by decide), hsub]
    try dsimp only
    rw [hins]
  refine ⟨hx, hins, hpt, ?_⟩
  rw [hpt]
  exact hleaf

def grp4 : UiInnerInstructionsW := ⟨[.parsed, .parsed, .parsed]⟩

/-- An oracle whose confirmed transaction has only 3 inner instructions in
group 0. -/
def rpc4 : Rpc :=
  { rpcW with getTransaction := fun _ => .ok ⟨some ⟨some [grp4]⟩⟩ }

/-- Witness for C4's theorem at a concrete input. -/
theorem c4_short_inner_instructions_witness :
    extract_compression_nonce rpc4 "sig-ok" = .error .NoInnerInstruction
    ∧ Processor.into_success .MintToCollection db3 rpc4 keyW "sig-ok"
        = .error (.AssetId .NoInnerInstruction)
    ∧ Processor.process_treasury rpc4 db3 .MintToCollection keyW res3
        = ⟨db3, [], some (.AssetId .NoInnerInstruction), [⟨["s1"], msgW⟩]⟩
    ∧ ((Processor.process_treasury rpc4 db3 .MintToCollection keyW
        res3).db).findLeaf uuidA = some leafA :=
  c4_short_inner_instructions rpc4 db3 keyW "sig-ok" uuidA leafA res3
    [⟨["s1"], msgW⟩] ⟨some ⟨some [grp4]⟩⟩ ⟨some [grp4]⟩ [grp4] grp4
    rfl rfl rfl rfl rfl rfl (by decide)
    (by simp [submit_transaction, res3, rpc4, rpcW,
      decodeMessage_encodeMessage])
    (by decide)

/-- C4 counterexample (the claim as frozen): at a concrete compressed mint
whose confirmed transaction has 3 inner instructions in group 0, extraction
yields `NoInnerInstruction` as claimed, but the `Submitted` event is *not*
"still emitted" — the run emits no event at all (the success path fails
with the `AssetId` error); only the "asset_id remains null" part holds. -/
theorem c4_counterexample :
    extract_compression_nonce rpc4 "sig-ok" = .error .NoInnerInstruction
    ∧ (Processor.process_treasury rpc4 db3 .MintToCollection keyW
        res3).emitted = []
    ∧ (Processor.process_treasury rpc4 db3 .MintToCollection keyW
        res3).err = some (.AssetId .NoInnerInstruction)
    ∧ (Processor.process_treasury rpc4 db3 .MintToCollection keyW
        res3).db.findLeaf uuidA = some leafA := by
  refine ⟨rfl, ?_, ?_, ?_⟩ <;> rfl

/-- C6: `TransferAsset` dispatch: if a `collection_mints` row exists for the
payload's `collection_mint_id`, the uncompressed transfer backend is used;
if only a `compression_leafs` row exists, the compressed backend is used —
which fetches the asset and its proof from the Asset API (`getAsset`,
`getAssetProof`), so an asset-API failure fails the assembly; if neither
row exists, assembly fails with `RecordNotFound`. -/
theorem c6_transfer_asset_dispatch (cfg : SolanaCfg) (rpc : Rpc) (db : Db)
    (payload : TransferMetaplexAssetTransaction) (id : Uuid)
    (hid : parseUuid payload.collection_mint_id = some id) :
    (∀ m, db.findMint id = some m →
      Processor.transfer_asset cfg rpc db payload
        = match UncompressedRef.transfer cfg rpc m payload with
          | .error e => .error (.Solana e)
          | .ok tx => .ok tx.toPending)
    ∧ (db.findMint id = none → ∀ leaf, db.findLeaf id = some leaf →
      Processor.transfer_asset cfg rpc db payload
        = match CompressedRef.transfer cfg rpc leaf payload with
          | .error e => .error (.Solana e)
          | .ok tx => .ok tx.toPending)
    ∧ (db.findMint id = none → ∀ leaf aid e, db.findLeaf id = some leaf →
        leaf.asset_id = some aid → rpc.getAsset aid = .error e →
        Processor.transfer_asset cfg rpc db payload
          = .error (.Solana ("fetching asset from DAA: " ++ e)))
    ∧ (db.findMint id = none → db.findLeaf id = none →
      Processor.transfer_asset cfg rpc db payload
        = .error .RecordNotFound) := by
  refine ⟨?_, ?_, ?_, ?_⟩
  · intro m hm
    simp only [Processor.transfer_asset, hid]
    try dsimp only
    rw [hm]
  · intro hnone leaf hleaf
    simp only [Processor.transfer_asset, hid]
    try dsimp only
    rw [hnone]
    try dsimp only
    rw [hleaf]
  · intro hnone leaf aid e hleaf haid hget
    simp only [Processor.transfer_asset, hid]
    try dsimp only
    rw [hnone]
    try dsimp only
    rw [hleaf]
    try dsimp only
    simp only [CompressedRef.transfer, haid]
    try dsimp only
    rw [hget]
  · intro hnone hlnone
    simp only [Processor.transfer_asset, hid]
    try dsimp only
    rw [hnone]
    try dsimp only
    rw [hlnone]

def cfgW : SolanaCfg := ⟨"treasury-w", "tree-auth-w", "merkle-w", "cpi-w"⟩

def mintRowA : CollectionMintRow :=
  ⟨uuidA, uuidB, "mint-1", "owner-1", "ata-1", 0⟩

def db6 : Db := ⟨[], [mintRowA], [], []⟩

def payload6 : TransferMetaplexAssetTransaction :=
  ⟨"owner-1", "recip-1", uuidA⟩

/-- Witness for C6's theorem at a concrete input (mint row present → the
uncompressed backend's result is returned). -/
theorem c6_transfer_asset_dispatch_witness :
    Processor.transfer_asset cfgW rpcW db6 payload6
      = match UncompressedRef.transfer cfgW rpcW mintRowA payload6 with
        | .error e => .error (.Solana e)
        | .ok tx => .ok tx.toPending :=
  (c6_transfer_asset_dispatch cfgW rpcW db6 payload6 uuidA rfl).1
    mintRowA rfl

/-- The collection-mint row updated with the freshly assembled addresses
(the write `retry_mint_to_collection` performs). -/
def CollectionMintRow.withNewAddresses (m : CollectionMintRow)
    (tx : TransactionResponse MintMetaplexAddresses) : CollectionMintRow :=
  { m with
    mint := tx.addresses.mint
    owner := tx.addresses.recipient
    associated_token_account := tx.addresses.associated_token_account }

/-- C7: `RetryMintToCollection` / `RetryMintOpenDrop` select the
uncompressed mint backend unconditionally: the outcome is independent of
the payload's `compressed` flag; the `collection_mints` row for the event
id is updated with the new mint, owner and associated token account; and a
mint that exists only as a `compression_leafs` row (no `collection_mints`
row) fails with `RecordNotFound`. -/
theorem c7_retry_mint_uses_uncompressed (cfg : SolanaCfg) (rpc : Rpc)
    (mintKp : Keypair) (db : Db) (key : SolanaNftEventKey)
    (payload : MintMetaplexMetadataTransaction) (id : Uuid)
    (hid : parseUuid key.id = some id) :
    (∀ b : Bool,
      Processor.process_retry_mint_to_collection cfg rpc mintKp db key
          { payload with compressed := b }
        = Processor.process_retry_mint_to_collection cfg rpc mintKp db key
            payload)
    ∧ (∀ m c tx, db.findMint id = some m →
        db.findCollection m.collection_id = some c →
        UncompressedRef.mint cfg rpc mintKp c payload = .ok tx →
        db.findMintWithCollection id = some (m, some c)
        ∧ Processor.process_retry_mint_to_collection cfg rpc mintKp db key
            payload
          = .ok (tx.toPending, db.updateMintRow (m.withNewAddresses tx))
        ∧ m.id = id
        ∧ (db.updateMintRow (m.withNewAddresses tx)).findMint id
            = some (m.withNewAddresses tx))
    ∧ (db.findMint id = none →
        Processor.process_retry_mint_to_collection cfg rpc mintKp db key
          payload = .error .RecordNotFound) := by
  refine ⟨?_, ?_, ?_⟩
  · intro b
    rfl
  · intro m c tx hfm hfc hmint
    have hfind : db.findMintWithCollection id = some (m, some c) := by
      simp [Db.findMintWithCollection, hfm, hfc]
    have hmid : m.id = id := by
      have h2 := List.find?_some hfm
      simpa [beq_iff_eq] using h2
    refine ⟨hfind, ?_, hmid, ?_⟩
    · simp only [Processor.process_retry_mint_to_collection,
        Processor.retry_mint_to_collection, hid]
      try dsimp only
      rw [hfind]
      try dsimp only
      rw [hmint]
      rfl
    · simp only [Db.findMint, Db.updateMintRow]
      exact find_map_replace CollectionMintRow.id db.collection_mints id m
        (m.withNewAddresses tx) hfm rfl
  · intro hnone
    simp only [Processor.process_retry_mint_to_collection,
      Processor.retry_mint_to_collection, hid]
    try dsimp only
    rw [show db.findMintWithCollection id = none from by
      simp [Db.findMintWithCollection, hnone]]

def colA : CollectionRow :=
  ⟨uuidB, "me-1", "owner-7", "meta-1", "colata-1", "colmint-1", "ua-1", 0⟩

def md7 : MetaplexMetadataArg := ⟨"name7", "sym7", 100, "uri7", [], "owner-7"⟩

def payload7 : MintMetaplexMetadataTransaction :=
  ⟨"recip-7", some md7, uuidB, true⟩

def mintRow7 : CollectionMintRow :=
  ⟨uuidA, uuidB, "old-mint", "old-owner", "old-ata", 0⟩

def db7 : Db := ⟨[colA], [mintRow7], [], []⟩

def mintKp7 : Keypair := ⟨"new-mint-7"⟩

/-- Witness for C7's theorem at a concrete input — note the payload has
`compressed = true` and the uncompressed backend is still used. -/
theorem c7_retry_mint_uses_uncompressed_witness :
    ∃ tx, UncompressedRef.mint cfgW rpcW mintKp7 colA payload7 = .ok tx
      ∧ Processor.process_retry_mint_to_collection cfgW rpcW mintKp7 db7
          keyW payload7
          = .ok (tx.toPending, db7.updateMintRow
              (mintRow7.withNewAddresses tx))
      ∧ (db7.updateMintRow (mintRow7.withNewAddresses tx)).findMint uuidA
          = some (mintRow7.withNewAddresses tx) := by
  have hok : ∃ tx,
      UncompressedRef.mint cfgW rpcW mintKp7 colA payload7 = .ok tx :=
    ⟨_, rfl⟩
  obtain ⟨tx, hmint⟩ := hok
  have h := (c7_retry_mint_uses_uncompressed cfgW rpcW mintKp7 db7 keyW
    payload7 uuidA rfl).2.1 mintRow7 colA tx rfl rfl hmint
  exact ⟨tx, hmint, h.2.1, h.2.2.2⟩

/-- C9: `retry_update_mint` deserializes the stored
`UpdateRevision.serialized_message`, replaces only `recent_blockhash` with
a freshly fetched blockhash, and re-serializes: the decoded output message
agrees with the stored one on the header, the account keys and the
instructions, and its blockhash is the fresh one; the returned signer list
is `[revision.payer, revision.update_authority]` as public keys; and the
`RetryUpdateCollectionMint` processor path returns exactly this pending
transaction for the stored revision of the event id. -/
theorem c9_retry_update_mint_refreshes_blockhash_only (rpc : Rpc) (db : Db)
    (key : SolanaNftEventKey) (revision : UpdateRevisionRow) (id : Uuid)
    (msg : SolMessage) (bh : Blockhash)
    (hid : parseUuid key.id = some id)
    (hrev : db.findRevision id = some revision)
    (hdec : decodeMessage revision.serialized_message = some msg)
    (hbh : rpc.latestBlockhash = .ok bh) :
    ∃ tx : TransactionResponse UpdateCollectionMintAddresses,
      UncompressedRef.retry_update_mint rpc revision = .ok tx
      ∧ decodeMessage tx.serialized_message
          = some { msg with recentBlockhash := bh }
      ∧ (decodeMessage tx.serialized_message).map (fun m => m.header)
          = some msg.header
      ∧ (decodeMessage tx.serialized_message).map (fun m => m.accountKeys)
          = some msg.accountKeys
      ∧ (decodeMessage tx.serialized_message).map (fun m => m.instructions)
          = some msg.instructions
      ∧ (decodeMessage tx.serialized_message).map
          (fun m => m.recentBlockhash) = some bh
      ∧ tx.signatures_or_signers_public_keys
          = [revision.payer, revision.update_authority]
      ∧ Processor.retry_update_collection_mint rpc db key
          = .ok tx.toPending := by
  have hmint : UncompressedRef.retry_update_mint rpc revision
      = .ok { serialized_message :=
                encodeMessage { msg with recentBlockhash := bh }
              signatures_or_signers_public_keys :=
                [revision.payer, revision.update_authority]
              addresses :=
                { payer := revision.payer
                  metadata := revision.metadata
                  update_authority := revision.update_authority } } := by
    simp only [UncompressedRef.retry_update_mint, hdec]
    try dsimp only
    rw [hbh]
  refine ⟨_, hmint, ?_, ?_, ?_, ?_, ?_, rfl, ?_⟩
  · exact decodeMessage_encodeMessage _
  · rw [decodeMessage_encodeMessage]
    rfl
  · rw [decodeMessage_encodeMessage]
    rfl
  · rw [decodeMessage_encodeMessage]
    rfl
  · rw [decodeMessage_encodeMessage]
    rfl
  · simp only [Processor.retry_update_collection_mint, hid]
    try dsimp only
    rw [hrev]
    try dsimp only
    rw [hmint]

def rev9 : UpdateRevisionRow :=
  ⟨uuidA, uuidB, encodeMessage msgW, "payer-9", "meta-9", "ua-9"⟩

def db9 : Db := ⟨[], [], [], [rev9]⟩

/-- Witness for C9's theorem at a concrete input. -/
theorem c9_retry_update_mint_witness :
    ∃ tx : TransactionResponse UpdateCollectionMintAddresses,
      UncompressedRef.retry_update_mint rpcW rev9 = .ok tx
      ∧ decodeMessage tx.serialized_message
          = some { msgW with recentBlockhash := "blockhash-2" }
      ∧ (decodeMessage tx.serialized_message).map (fun m => m.header)
          = some msgW.header
      ∧ (decodeMessage tx.serialized_message).map (fun m => m.accountKeys)
          = some msgW.accountKeys
      ∧ (decodeMessage tx.serialized_message).map (fun m => m.instructions)
          = some msgW.instructions
      ∧ (decodeMessage tx.serialized_message).map
          (fun m => m.recentBlockhash) = some "blockhash-2"
      ∧ tx.signatures_or_signers_public_keys = ["payer-9", "ua-9"]
      ∧ Processor.retry_update_collection_mint rpcW db9 keyW
          = .ok tx.toPending :=
  c9_retry_update_mint_refreshes_blockhash_only rpcW db9 keyW rev9 uuidA
    msgW "blockhash-2" rfl rfl (decodeMessage_encodeMessage msgW) rfl

/-- The row update `CollectionMint::update_owner_and_ata` performs. -/
def CollectionMintRow.withOwnerAndAta (m : CollectionMintRow)
    (owner ata : String) : CollectionMintRow :=
  { m with owner := owner, associated_token_account := ata }

/-- C8 (amended): when the scan of `process_spl_token_transaction` reaches a
token-program instruction whose data decodes to `Transfer{amount: 1}` or
`TransferChecked{amount: 1, ..}` (destination at account index 1
resp. 2) and whose source account (account index 0) is some
`collection_mints` row's associated token account, the processor fetches
the destination token account, updates the row's owner to the destination
account's owner and its `associated_token_account` to the destination
address, and emits exactly one `UpdateMintOwner` event whose sender is the
row's previous owner and whose recipient is the new owner. **However** the
scan returns at the first amount-1 transfer whose source is unknown, so
matching instructions after such an instruction in the same transaction
are not processed (second conjunct). -/
theorem c8_spl_token_transfer_processing (rpc : Rpc) (db : Db)
    (pidx : Nat) (keys : List Pubkey) (sig : String) :
    (∀ ins ti amount dIdx si source row di dest acct,
      ins.program_id_index = pidx →
      TokenInstruction.unpack ins.data = some ti →
      transferInfoOf ti = some (amount, dIdx) →
      amount = 1 →
      ins.accounts.get? 0 = some si →
      keys.get? si = some source →
      db.findMintByAta source = some row →
      ins.accounts.get? dIdx = some di →
      keys.get? di = some dest →
      rpc.getAccount dest = .ok acct →
      Indexer.process_spl_token_transaction rpc db pidx keys sig ⟨[ins]⟩
        = ⟨db.updateMintRow (row.withOwnerAndAta acct.owner dest),
            [(⟨row.id, "", ""⟩,
              .updateMintOwner acct.mint row.owner acct.owner sig)],
            none⟩)
    ∧ (∀ ins rest ti amount dIdx si source,
      ins.program_id_index = pidx →
      TokenInstruction.unpack ins.data = some ti →
      transferInfoOf ti = some (amount, dIdx) →
      amount = 1 →
      ins.accounts.get? 0 = some si →
      keys.get? si = some source →
      db.findMintByAta source = none →
      Indexer.process_spl_token_transaction rpc db pidx keys sig
        ⟨ins :: rest⟩ = ⟨db, [], none⟩) := by
  constructor
  · intro ins ti amount dIdx si source row di dest acct
      hprog hunpack hti ham hacc0 hk0 hrow haccd hkd hacct
    subst ham
    simp only [Indexer.process_spl_token_transaction, Indexer.process_spl_go]
    rw [if_neg (by simp [hprog]), hunpack]
    try dsimp only
    rw [hti]
    try dsimp only
    rw [if_pos rfl, hacc0]
    try dsimp only
    rw [hk0]
    try dsimp only
    rw [hrow]
    try dsimp only
    rw [haccd]
    try dsimp only
    rw [hkd]
    try dsimp only
    rw [hacct]
    rfl
  · intro ins rest ti amount dIdx si source
      hprog hunpack hti ham hacc0 hk0 hrow
    subst ham
    simp only [Indexer.process_spl_token_transaction, Indexer.process_spl_go]
    rw [if_neg (by simp [hprog]), hunpack]
    try dsimp only
    rw [hti]
    try dsimp only
    rw [if_pos rfl, hacc0]
    try dsimp only
    rw [hk0]
    try dsimp only
    rw [hrow]

def keys8 : List Pubkey := ["unknown-src", "known-src", "dest-acc"]

/-- An SPL `Transfer { amount: 1 }` instruction: tag 3 then the u64 LE 1. -/
def transferData1 : List Nat := [3, 1, 0, 0, 0, 0, 0, 0, 0]

def insA : SplInstruction := ⟨0, [0, 1], transferData1⟩

def insB : SplInstruction := ⟨0, [1, 2], transferData1⟩

def row8 : CollectionMintRow :=
  ⟨uuidA, uuidB, "mint-8", "owner-8", "known-src", 0⟩

def db8 : Db := ⟨[], [row8], [], []⟩

def rpc8 : Rpc :=
  { rpcW with getAccount := fun _ => .ok ⟨"mint-8", "new-owner-8"⟩ }

/-- Witness for C8's theorem at a concrete input (the single-instruction
transfer is processed: row updated, one event emitted). -/
theorem c8_spl_token_transfer_processing_witness :
    Indexer.process_spl_token_transaction rpc8 db8 0 keys8 "sig8" ⟨[insB]⟩
      = ⟨db8.updateMintRow (row8.withOwnerAndAta "new-owner-8" "dest-acc"),
          [(⟨uuidA, "", ""⟩,
            .updateMintOwner "mint-8" "owner-8" "new-owner-8" "sig8")],
          none⟩ :=
  (c8_spl_token_transfer_processing rpc8 db8 0 keys8 "sig8").1
    insB (.transfer 1) 1 1 1 "known-src" row8 2 "dest-acc"
    ⟨"mint-8", "new-owner-8"⟩ rfl rfl rfl rfl rfl rfl rfl rfl rfl rfl

/-- C8 counterexample (the claim as frozen): a transaction whose first
amount-1 transfer has an unknown source and whose *second* instruction is
an amount-1 transfer from a known associated token account. The claim
("for each outer instruction … if the source equals some row's ata, the
processor updates the row and emits one UpdateMintOwner") requires an
event for the second instruction, but the scan returns at the first one:
nothing is updated and nothing is emitted. Processing the second
instruction alone does emit — the antecedent is genuinely satisfiable. -/
theorem c8_counterexample :
    TokenInstruction.unpack insB.data = some (.transfer 1)
    ∧ db8.findMintByAta "known-src" = some row8
    ∧ Indexer.process_spl_token_transaction rpc8 db8 0 keys8 "sig8"
        ⟨[insA, insB]⟩ = ⟨db8, [], none⟩
    ∧ Indexer.process_spl_token_transaction rpc8 db8 0 keys8 "sig8" ⟨[insB]⟩
        = ⟨db8.updateMintRow (row8.withOwnerAndAta "new-owner-8" "dest-acc"),
            [(⟨uuidA, "", ""⟩,
              .updateMintOwner "mint-8" "owner-8" "new-owner-8" "sig8")],
            none⟩ :=
  ⟨rfl, rfl, rfl, rfl⟩

/-! ### Signer-list computation for the builders (C5) -/

theorem filter_false_map_program (q : AccountMeta → Bool) (ps : List Pubkey)
    (hq : ∀ p, q ⟨p, false, false⟩ = false) :
    (ps.map (fun p => (⟨p, false, false⟩ : AccountMeta))).filter q = [] := by
  induction ps with
  | nil => rfl
  | cons p ps ih => simp [List.filter_cons, hq p, ih]

/-- Program-id metas are readonly non-signers, so they vanish from any
flag filter that rejects `(false, false)` metas. -/
theorem metasOf_filter_nonprogram (instrs : List SolInstruction)
    (q : AccountMeta → Bool) (hq : ∀ p, q ⟨p, false, false⟩ = false) :
    (metasOf instrs).filter q
      = ((instrs.map (·.accounts)).flatten).filter q := by
  simp only [metasOf, List.filter_append]
  rw [filter_false_map_program q _ hq, List.append_nil]

/-- The signed keys of the `create` message: payer, then the ephemeral mint
key (writable signer), then the owner (readonly signer). -/
theorem create_signedKeys (payer owner mintPub : Pubkey) (rent : Nat)
    (h1 : mintPub ≠ payer) (h2 : owner ≠ payer) (h3 : mintPub ≠ owner) :
    signedKeys payer
        (UncompressedRef.createInstructions payer owner mintPub rent)
      = [payer, mintPub, owner] := by
  have e1 : (mintPub == payer) = false := beq_eq_false_iff_ne.mpr h1
  have e2 : (owner == payer) = false := beq_eq_false_iff_ne.mpr h2
  have e3 : (mintPub == owner) = false := beq_eq_false_iff_ne.mpr h3
  rw [signedKeys, signerKeysOf_uniqueMetas,
    metasOf_filter_nonprogram _ _ (fun p => rfl),
    metasOf_filter_nonprogram _ _ (fun p => rfl)]
  simp [UncompressedRef.createInstructions, createAccountIx,
    initializeMintIx, createAtaIx, mintToIx, createMetadataV3Ix,
    createMasterEditionV3Ix, List.filter_cons, dedupPromote, promoteInto,
    signerKeysOf, e1, e2, e3]

/-- The signed keys of the compressed `MintToCollectionV1` message: payer,
then the collection authority (owner) — with or without the conditional
verified-creator duplicate, which merges away. -/
theorem compressed_signedKeys (cfg : SolanaCfg)
    (recipient owner cm cmd cme : Pubkey) (d : List Nat) (b : Bool)
    (h4 : owner ≠ cfg.treasury_wallet_address) :
    signedKeys cfg.treasury_wallet_address
        [⟨bubblegumProgId,
          CompressedRef.mintToCollectionV1Accounts cfg recipient owner cm
            cmd cme b, d⟩]
      = [cfg.treasury_wallet_address, owner] := by
  have e4 : (owner == cfg.treasury_wallet_address) = false :=
    beq_eq_false_iff_ne.mpr h4
  rw [signedKeys, signerKeysOf_uniqueMetas,
    metasOf_filter_nonprogram _ _ (fun p => rfl),
    metasOf_filter_nonprogram _ _ (fun p => rfl)]
  cases b <;>
    simp [CompressedRef.mintToCollectionV1Accounts, List.filter_cons,
      dedupPromote, promoteInto, signerKeysOf, e4]

/-- The inline `instructions` vector of `UncompressedRef::mint`, restated
as a definition for the signer computation (definitionally equal to the
list the builder compiles). -/
def UncompressedRef.mintInstructions (payer owner recipient mintPub cm cmd
    cme : Pubkey) (rent : Nat) : List SolInstruction :=
  [createAccountIx payer mintPub rent mintLen splTokenId,
    initializeMintIx mintPub owner,
    createAtaIx payer recipient mintPub,
    mintToIx mintPub (get_associated_token_address recipient mintPub) owner
      [] 1,
    createMetadataV3Ix (metadataPda mintPub) mintPub owner payer owner
      "create-metadata-v3-unverified-collection",
    verifySizedCollectionItemIx (metadataPda mintPub) owner payer cm cmd cme]

/-- The inline `instructions` vector of `UncompressedRef::transfer`,
restated as a definition for the signer computation. -/
def UncompressedRef.transferInstructions (payer sender recipient mintAddr :
    Pubkey) : List SolInstruction :=
  [createAtaIx payer recipient mintAddr,
    tokenTransferIx (get_associated_token_address sender mintAddr)
      (get_associated_token_address recipient mintAddr) sender [sender] 1,
    closeAccountIx (get_associated_token_address sender mintAddr) payer
      sender [sender]]

/-- The inline `accounts` vector of the Bubblegum `Transfer` instruction of
`CompressedRef::transfer`, restated as a definition for the signer
computation: only the leaf owner is a signer; the proof-path metas are
readonly non-signers. -/
def CompressedRef.transferAccounts (ta owner recipient merkle : Pubkey)
    (proofKeys : List Pubkey) : List AccountMeta :=
  [⟨ta, false, true⟩, ⟨owner, true, false⟩, ⟨owner, false, false⟩,
    ⟨recipient, false, false⟩, ⟨merkle, false, true⟩,
    ⟨noopProgId, false, false⟩, ⟨accountCompressionProgId, false, false⟩,
    ⟨systemProgramId, false, false⟩]
    ++ proofKeys.map (fun p => ⟨p, false, false⟩)

/-- The signed keys of the `UncompressedRef::mint` message: payer, then the
ephemeral mint key (writable signer), then the owner (signer via `mint_to`,
the metadata authorities and `verify_sized_collection_item`). -/
theorem umint_signedKeys (payer owner recipient mintPub cm cmd cme : Pubkey)
    (rent : Nat)
    (h1 : mintPub ≠ payer) (h2 : owner ≠ payer) (h3 : mintPub ≠ owner) :
    signedKeys payer
        (UncompressedRef.mintInstructions payer owner recipient mintPub cm
          cmd cme rent)
      = [payer, mintPub, owner] := by
  have e1 : (mintPub == payer) = false := beq_eq_false_iff_ne.mpr h1
  have e2 : (owner == payer) = false := beq_eq_false_iff_ne.mpr h2
  have e3 : (mintPub == owner) = false := beq_eq_false_iff_ne.mpr h3
  rw [signedKeys, signerKeysOf_uniqueMetas,
    metasOf_filter_nonprogram _ _ (fun p => rfl),
    metasOf_filter_nonprogram _ _ (fun p => rfl)]
  simp [UncompressedRef.mintInstructions, createAccountIx, initializeMintIx,
    createAtaIx, mintToIx, createMetadataV3Ix, verifySizedCollectionItemIx,
    List.filter_cons, dedupPromote, promoteInto, signerKeysOf, e1, e2, e3]

/-- The signed keys of the `EditionRef::mint` message: payer, then the
ephemeral edition mint key (writable signer via `create_account`), then the
owner (readonly signer via the `mint_to` multisig and
`mint_new_edition_from_master_edition_via_token`). -/
theorem edition_signedKeys (payer owner recipient newMintPub mePub eta md
    mm : Pubkey) (rent edition : Nat)
    (h1 : newMintPub ≠ payer) (h2 : owner ≠ payer)
    (h3 : newMintPub ≠ owner) :
    signedKeys payer
        (EditionRef.mintInstructions payer owner recipient newMintPub mePub
          eta md mm rent edition)
      = [payer, newMintPub, owner] := by
  have e1 : (newMintPub == payer) = false := beq_eq_false_iff_ne.mpr h1
  have e2 : (owner == payer) = false := beq_eq_false_iff_ne.mpr h2
  have e3 : (newMintPub == owner) = false := beq_eq_false_iff_ne.mpr h3
  rw [signedKeys, signerKeysOf_uniqueMetas,
    metasOf_filter_nonprogram _ _ (fun p => rfl),
    metasOf_filter_nonprogram _ _ (fun p => rfl)]
  simp [EditionRef.mintInstructions, createAccountIx, initializeMintIx,
    createAtaIx, mintToIx, mintNewEditionIx, List.filter_cons, dedupPromote,
    promoteInto, signerKeysOf, e1, e2, e3]

/-- The signed keys of a single-`update_metadata_accounts_v2` message
(`UncompressedRef::update` and `::update_mint`): payer, then the update
authority (readonly signer). -/
theorem update_signedKeys (payer ua md : Pubkey) (tag : String)
    (h : ua ≠ payer) :
    signedKeys payer [updateMetadataV2Ix md ua tag] = [payer, ua] := by
  have e : (ua == payer) = false := beq_eq_false_iff_ne.mpr h
  rw [signedKeys, signerKeysOf_uniqueMetas,
    metasOf_filter_nonprogram _ _ (fun p => rfl),
    metasOf_filter_nonprogram _ _ (fun p => rfl)]
  simp [updateMetadataV2Ix, List.filter_cons, dedupPromote, promoteInto,
    signerKeysOf, e]

/-- The signed keys of the `UncompressedRef::transfer` message: payer, then
the sender (readonly multisig signer of the token transfer and the account
close). -/
theorem transfer_signedKeys (payer sender recipient mintAddr : Pubkey)
    (h : sender ≠ payer) :
    signedKeys payer
        (UncompressedRef.transferInstructions payer sender recipient
          mintAddr)
      = [payer, sender] := by
  have e : (sender == payer) = false := beq_eq_false_iff_ne.mpr h
  rw [signedKeys, signerKeysOf_uniqueMetas,
    metasOf_filter_nonprogram _ _ (fun p => rfl),
    metasOf_filter_nonprogram _ _ (fun p => rfl)]
  simp [UncompressedRef.transferInstructions, createAtaIx, tokenTransferIx,
    closeAccountIx, List.filter_cons, dedupPromote, promoteInto,
    signerKeysOf, e]

/-- The signed keys of the compressed `Transfer` message: payer, then the
leaf owner; the symbolic proof-path metas drop out of both signer groups. -/
theorem compressed_transfer_signedKeys (payer owner ta recipient merkle :
    Pubkey) (proofKeys : List Pubkey) (d : List Nat) (h : owner ≠ payer) :
    signedKeys payer
        [⟨bubblegumProgId,
          CompressedRef.transferAccounts ta owner recipient merkle proofKeys,
          d⟩]
      = [payer, owner] := by
  have e : (owner == payer) = false := beq_eq_false_iff_ne.mpr h
  have hp1 : (proofKeys.map
        (fun p => (⟨p, false, false⟩ : AccountMeta))).filter
      (fun m => m.is_signer && m.is_writable) = [] :=
    filter_false_map_program _ _ (fun p => rfl)
  have hp2 : (proofKeys.map
        (fun p => (⟨p, false, false⟩ : AccountMeta))).filter
      (fun m => m.is_signer && !m.is_writable) = [] :=
    filter_false_map_program _ _ (fun p => rfl)
  rw [signedKeys, signerKeysOf_uniqueMetas,
    metasOf_filter_nonprogram _ _ (fun p => rfl),
    metasOf_filter_nonprogram _ _ (fun p => rfl)]
  simp only [CompressedRef.transferAccounts, List.map_cons, List.map_nil,
    List.flatten_cons, List.flatten_nil, List.append_nil, List.filter_append]
  rw [hp1, hp2]
  simp [List.filter_cons, dedupPromote, promoteInto, signerKeysOf, e]

/-- The signed keys of the `UncompressedRef::switch` message: payer, then
the OLD collection authority (writable signer of
`unverify_sized_collection_item`), then the NEW collection authority
(writable signer of `set_and_verify_sized_collection_item`) — three
required signers in total. -/
theorem switch_signedKeys (payer m oldAuth cm cmd cme newAuth nua ncm ncmd
    ncme : Pubkey)
    (h1 : oldAuth ≠ payer) (h2 : newAuth ≠ payer) (h3 : oldAuth ≠ newAuth) :
    signedKeys payer
        (UncompressedRef.switchInstructions payer m oldAuth cm cmd cme
          newAuth nua ncm ncmd ncme)
      = [payer, oldAuth, newAuth] := by
  have e1 : (oldAuth == payer) = false := beq_eq_false_iff_ne.mpr h1
  have e2 : (newAuth == payer) = false := beq_eq_false_iff_ne.mpr h2
  have e3 : (oldAuth == newAuth) = false := beq_eq_false_iff_ne.mpr h3
  rw [signedKeys, signerKeysOf_uniqueMetas,
    metasOf_filter_nonprogram _ _ (fun p => rfl),
    metasOf_filter_nonprogram _ _ (fun p => rfl)]
  simp [UncompressedRef.switchInstructions, unverifySizedCollectionItemIx,
    setAndVerifySizedCollectionItemIx, List.filter_cons, dedupPromote,
    promoteInto, signerKeysOf, e1, e2, e3]

/-- C5 (amended): for every transaction builder EXCEPT
`UncompressedRef::switch`, the returned `signatures_or_signers_public_keys`
vector has length equal to the number of required signers declared by the
serialized message, and entry `i` occupies the positional slot of the
message's required-signer `i`: the slot of the locally-owned ephemeral mint
keypair carries a pre-computed signature over the exact serialized bytes
(`UncompressedRef::create`, `UncompressedRef::mint`, `EditionRef::mint`),
and every other entry is the base58 public key the treasury must sign with;
for `retry_update_mint` this holds relative to the stored revision message,
which `update_mint` writes with exactly the two slots
`[payer, update_authority]`. For `UncompressedRef::switch` the property
FAILS: `set_and_verify_sized_collection_item` makes the new collection's
authority a required signer, so the message declares the three signers
`[payer, old authority, new authority]` while the returned vector is
`[payer, old authority]` — one entry short. (Distinctness hypotheses rule
out degenerate key collisions, under which the compiled message would merge
signer slots.) -/
theorem c5_signatures_or_signers_positional (cfg : SolanaCfg) (rpc : Rpc)
    (rent : Nat) (bh : Blockhash)
    (hrent : rpc.minRentExemption mintLen = .ok rent)
    (hbh : rpc.latestBlockhash = .ok bh) :
    (∀ (mintKp : Keypair) (me : MasterEditionArg),
      mintKp.pub ≠ cfg.treasury_wallet_address →
      me.owner_address ≠ cfg.treasury_wallet_address →
      mintKp.pub ≠ me.owner_address →
      ∃ resp msg,
        UncompressedRef.create cfg rpc mintKp ⟨some me⟩ = .ok resp
        ∧ decodeMessage resp.serialized_message = some msg
        ∧ resp.signatures_or_signers_public_keys.length
            = msg.header.numRequiredSignatures
        ∧ requiredSigners msg
            = [cfg.treasury_wallet_address, mintKp.pub, me.owner_address]
        ∧ resp.signatures_or_signers_public_keys
            = [cfg.treasury_wallet_address,
                signMessage mintKp resp.serialized_message,
                me.owner_address])
    ∧ (∀ (mintKp : Keypair) (md : MetaplexMetadataArg)
        (recipient cid : String) (compressed : Bool)
        (collection : CollectionRow),
      mintKp.pub ≠ cfg.treasury_wallet_address →
      md.owner_address ≠ cfg.treasury_wallet_address →
      mintKp.pub ≠ md.owner_address →
      ∃ resp msg,
        UncompressedRef.mint cfg rpc mintKp collection
            ⟨recipient, some md, cid, compressed⟩ = .ok resp
        ∧ decodeMessage resp.serialized_message = some msg
        ∧ resp.signatures_or_signers_public_keys.length
            = msg.header.numRequiredSignatures
        ∧ requiredSigners msg
            = [cfg.treasury_wallet_address, mintKp.pub, md.owner_address]
        ∧ resp.signatures_or_signers_public_keys
            = [cfg.treasury_wallet_address,
                signMessage mintKp resp.serialized_message,
                md.owner_address])
    ∧ (∀ (md : MetaplexMetadataArg) (recipient cid : String)
        (compressed : Bool) (collection : CollectionRow),
      md.owner_address ≠ cfg.treasury_wallet_address →
      ∃ resp msg,
        CompressedRef.mint cfg rpc collection
            ⟨recipient, some md, cid, compressed⟩ = .ok resp
        ∧ decodeMessage resp.serialized_message = some msg
        ∧ resp.signatures_or_signers_public_keys.length
            = msg.header.numRequiredSignatures
        ∧ requiredSigners msg
            = [cfg.treasury_wallet_address, md.owner_address]
        ∧ resp.signatures_or_signers_public_keys
            = [cfg.treasury_wallet_address, md.owner_address])
    ∧ (∀ (newMintKp : Keypair) (collection : CollectionRow)
        (txn : MintMetaplexEditionTransaction),
      newMintKp.pub ≠ cfg.treasury_wallet_address →
      txn.owner_address ≠ cfg.treasury_wallet_address →
      newMintKp.pub ≠ txn.owner_address →
      ∃ resp msg,
        EditionRef.mint cfg rpc newMintKp collection txn = .ok resp
        ∧ decodeMessage resp.serialized_message = some msg
        ∧ resp.signatures_or_signers_public_keys.length
            = msg.header.numRequiredSignatures
        ∧ requiredSigners msg
            = [cfg.treasury_wallet_address, newMintKp.pub,
                txn.owner_address]
        ∧ resp.signatures_or_signers_public_keys
            = [cfg.treasury_wallet_address,
                signMessage newMintKp resp.serialized_message,
                txn.owner_address])
    ∧ (∀ (collection : CollectionRow) (me : MasterEditionArg),
      me.owner_address ≠ cfg.treasury_wallet_address →
      ∃ resp msg,
        UncompressedRef.update cfg rpc collection ⟨some me⟩ = .ok resp
        ∧ decodeMessage resp.serialized_message = some msg
        ∧ resp.signatures_or_signers_public_keys.length
            = msg.header.numRequiredSignatures
        ∧ requiredSigners msg
            = [cfg.treasury_wallet_address, me.owner_address]
        ∧ resp.signatures_or_signers_public_keys
            = [cfg.treasury_wallet_address, me.owner_address])
    ∧ (∀ (collection : CollectionRow) (cm : CollectionMintRow)
        (md : MetaplexMetadataArg) (cid mid : String),
      md.owner_address ≠ cfg.treasury_wallet_address →
      ∃ resp msg,
        UncompressedRef.update_mint cfg rpc collection cm
            ⟨some md, cid, mid⟩ = .ok resp
        ∧ decodeMessage resp.serialized_message = some msg
        ∧ resp.signatures_or_signers_public_keys.length
            = msg.header.numRequiredSignatures
        ∧ requiredSigners msg
            = [cfg.treasury_wallet_address, md.owner_address]
        ∧ resp.signatures_or_signers_public_keys
            = [cfg.treasury_wallet_address, md.owner_address])
    ∧ (∀ (revision : UpdateRevisionRow) (bh0 : Blockhash) (mdPda : Pubkey)
        (tag : String),
      revision.serialized_message
          = encodeMessage (compileMessage revision.payer bh0
              [updateMetadataV2Ix mdPda revision.update_authority tag]) →
      revision.update_authority ≠ revision.payer →
      ∃ resp msg,
        UncompressedRef.retry_update_mint rpc revision = .ok resp
        ∧ decodeMessage resp.serialized_message = some msg
        ∧ resp.signatures_or_signers_public_keys.length
            = msg.header.numRequiredSignatures
        ∧ requiredSigners msg
            = [revision.payer, revision.update_authority]
        ∧ resp.signatures_or_signers_public_keys
            = [revision.payer, revision.update_authority])
    ∧ (∀ (cm : CollectionMintRow)
        (txn : TransferMetaplexAssetTransaction),
      txn.owner_address ≠ cfg.treasury_wallet_address →
      ∃ resp msg,
        UncompressedRef.transfer cfg rpc cm txn = .ok resp
        ∧ decodeMessage resp.serialized_message = some msg
        ∧ resp.signatures_or_signers_public_keys.length
            = msg.header.numRequiredSignatures
        ∧ requiredSigners msg
            = [cfg.treasury_wallet_address, txn.owner_address]
        ∧ resp.signatures_or_signers_public_keys
            = [cfg.treasury_wallet_address, txn.owner_address])
    ∧ (∀ (leaf : CompressionLeafRow)
        (txn : TransferMetaplexAssetTransaction) (aid : String)
        (asset : AssetRec) (prf : AssetProofRec) (dh ch : List Nat),
      leaf.asset_id = some aid →
      rpc.getAsset aid = .ok asset →
      rpc.getAssetProof aid = .ok prf →
      asset.compression.data_hash = some dh →
      asset.compression.creator_hash = some ch →
      prf.root.length = 32 →
      dh.length = 32 →
      ch.length = 32 →
      txn.owner_address ≠ cfg.treasury_wallet_address →
      ∃ resp msg,
        CompressedRef.transfer cfg rpc leaf txn = .ok resp
        ∧ decodeMessage resp.serialized_message = some msg
        ∧ resp.signatures_or_signers_public_keys.length
            = msg.header.numRequiredSignatures
        ∧ requiredSigners msg
            = [cfg.treasury_wallet_address, txn.owner_address]
        ∧ resp.signatures_or_signers_public_keys
            = [cfg.treasury_wallet_address, txn.owner_address])
    ∧ (∀ (mintRow : CollectionMintRow)
        (collection new_collection : CollectionRow),
      collection.owner ≠ cfg.treasury_wallet_address →
      new_collection.owner ≠ cfg.treasury_wallet_address →
      collection.owner ≠ new_collection.owner →
      ∃ resp msg,
        UncompressedRef.switch cfg rpc mintRow collection new_collection
            = .ok resp
        ∧ decodeMessage resp.serialized_message = some msg
        ∧ resp.signatures_or_signers_public_keys
            = [cfg.treasury_wallet_address, collection.owner]
        ∧ requiredSigners msg
            = [cfg.treasury_wallet_address, collection.owner,
                new_collection.owner]
        ∧ resp.signatures_or_signers_public_keys.length
            ≠ msg.header.numRequiredSignatures) := by
  refine ⟨?_, ?_, ?_, ?_, ?_, ?_, ?_, ?_, ?_, ?_⟩
  · intro mintKp me h1 h2 h3
    have hs := create_signedKeys cfg.treasury_wallet_address
      me.owner_address mintKp.pub rent h1 h2 h3
    have hc : UncompressedRef.create cfg rpc mintKp ⟨some me⟩
        = .ok { serialized_message :=
                  encodeMessage (compileMessage cfg.treasury_wallet_address
                    bh (UncompressedRef.createInstructions
                      cfg.treasury_wallet_address me.owner_address
                      mintKp.pub rent))
                signatures_or_signers_public_keys :=
                  [cfg.treasury_wallet_address,
                    signMessage mintKp
                      (encodeMessage (compileMessage
                        cfg.treasury_wallet_address bh
                        (UncompressedRef.createInstructions
                          cfg.treasury_wallet_address me.owner_address
                          mintKp.pub rent))),
                    me.owner_address]
                addresses :=
                  { master_edition := masterEditionPda mintKp.pub
                    update_authority := me.owner_address
                    associated_token_account :=
                      get_associated_token_address me.owner_address
                        mintKp.pub
                    mint := mintKp.pub
                    owner := me.owner_address
                    metadata := metadataPda mintKp.pub } } := by
      simp only [UncompressedRef.create]
      try dsimp only
      rw [hrent]
      try dsimp only
      rw [hbh]
      try rfl
    refine ⟨_, _, hc, decodeMessage_encodeMessage _, ?_, ?_, rfl⟩
    · rw [numRequiredSignatures_compileMessage, hs]
      try rfl
    · rw [requiredSigners_compileMessage, hs]
  · intro mintKp md recipient cid compressed collection h1 h2 h3
    have hs := umint_signedKeys cfg.treasury_wallet_address md.owner_address
      recipient mintKp.pub collection.mint collection.metadata
      collection.master_edition rent h1 h2 h3
    have hc : UncompressedRef.mint cfg rpc mintKp collection
        ⟨recipient, some md, cid, compressed⟩
        = .ok { serialized_message :=
                  encodeMessage (compileMessage cfg.treasury_wallet_address
                    bh (UncompressedRef.mintInstructions
                      cfg.treasury_wallet_address md.owner_address recipient
                      mintKp.pub collection.mint collection.metadata
                      collection.master_edition rent))
                signatures_or_signers_public_keys :=
                  [cfg.treasury_wallet_address,
                    signMessage mintKp
                      (encodeMessage (compileMessage
                        cfg.treasury_wallet_address bh
                        (UncompressedRef.mintInstructions
                          cfg.treasury_wallet_address md.owner_address
                          recipient mintKp.pub collection.mint
                          collection.metadata collection.master_edition
                          rent))),
                    md.owner_address]
                addresses :=
                  { update_authority := md.owner_address
                    associated_token_account :=
                      get_associated_token_address recipient mintKp.pub
                    mint := mintKp.pub
                    owner := md.owner_address
                    metadata := metadataPda mintKp.pub
                    recipient := recipient } } := by
      simp only [UncompressedRef.mint]
      try dsimp only
      rw [hrent]
      try dsimp only
      rw [hbh]
      try dsimp only
      try rfl
    refine ⟨_, _, hc, decodeMessage_encodeMessage _, ?_, ?_, rfl⟩
    · rw [numRequiredSignatures_compileMessage, hs]
      try rfl
    · rw [requiredSigners_compileMessage, hs]
  · intro md recipient cid compressed collection h4
    have hm : CompressedRef.mint cfg rpc collection
        ⟨recipient, some md, cid, compressed⟩
        = .ok { serialized_message :=
                  encodeMessage (compileMessage cfg.treasury_wallet_address
                    bh [⟨bubblegumProgId,
                      CompressedRef.mintToCollectionV1Accounts cfg recipient
                        md.owner_address collection.mint collection.metadata
                        collection.master_edition
                        (md.creators.any (fun c =>
                          c.verified && c.address == md.owner_address)),
                      encStr "bubblegum-mint-to-collection-v1"⟩])
                signatures_or_signers_public_keys :=
                  [cfg.treasury_wallet_address, md.owner_address]
                addresses :=
                  { leaf_owner := recipient
                    tree_delegate := cfg.treasury_wallet_address
                    tree_authority := cfg.tree_authority
                    merkle_tree := cfg.merkle_tree } } := by
      simp only [CompressedRef.mint]
      try dsimp only
      rw [hbh]
    have hs2 := compressed_signedKeys cfg recipient md.owner_address
      collection.mint collection.metadata collection.master_edition
      (encStr "bubblegum-mint-to-collection-v1")
      (md.creators.any (fun c => c.verified && c.address == md.owner_address))
      h4
    refine ⟨_, _, hm, decodeMessage_encodeMessage _, ?_, ?_, rfl⟩
    · rw [numRequiredSignatures_compileMessage, hs2]
    · rw [requiredSigners_compileMessage, hs2]
  · intro newMintKp collection txn h1 h2 h3
    have hs := edition_signedKeys cfg.treasury_wallet_address
      txn.owner_address txn.recipient_address newMintKp.pub
      collection.master_edition collection.associated_token_account
      collection.metadata collection.mint rent txn.edition h1 h2 h3
    have hc : EditionRef.mint cfg rpc newMintKp collection txn
        = .ok { serialized_message :=
                  encodeMessage (compileMessage cfg.treasury_wallet_address
                    bh (EditionRef.mintInstructions
                      cfg.treasury_wallet_address txn.owner_address
                      txn.recipient_address newMintKp.pub
                      collection.master_edition
                      collection.associated_token_account
                      collection.metadata collection.mint rent txn.edition))
                signatures_or_signers_public_keys :=
                  [cfg.treasury_wallet_address,
                    signMessage newMintKp
                      (encodeMessage (compileMessage
                        cfg.treasury_wallet_address bh
                        (EditionRef.mintInstructions
                          cfg.treasury_wallet_address txn.owner_address
                          txn.recipient_address newMintKp.pub
                          collection.master_edition
                          collection.associated_token_account
                          collection.metadata collection.mint rent
                          txn.edition))),
                    txn.owner_address]
                addresses :=
                  { owner := txn.owner_address
                    edition := masterEditionPda newMintKp.pub
                    mint := newMintKp.pub
                    metadata := metadataPda newMintKp.pub
                    associated_token_account :=
                      get_associated_token_address txn.recipient_address
                        newMintKp.pub
                    recipient := txn.recipient_address } } := by
      simp only [EditionRef.mint]
      try dsimp only
      rw [hrent]
      try dsimp only
      rw [hbh]
      try rfl
    refine ⟨_, _, hc, decodeMessage_encodeMessage _, ?_, ?_, rfl⟩
    · rw [numRequiredSignatures_compileMessage, hs]
      try rfl
    · rw [requiredSigners_compileMessage, hs]
  · intro collection me h2
    have hs := update_signedKeys cfg.treasury_wallet_address
      me.owner_address collection.metadata
      "update-metadata-v2-collection-none" h2
    have hc : UncompressedRef.update cfg rpc collection ⟨some me⟩
        = .ok { serialized_message :=
                  encodeMessage (compileMessage cfg.treasury_wallet_address
                    bh [updateMetadataV2Ix collection.metadata
                      me.owner_address
                      "update-metadata-v2-collection-none"])
                signatures_or_signers_public_keys :=
                  [cfg.treasury_wallet_address, me.owner_address]
                addresses :=
                  { metadata := collection.metadata
                    update_authority := me.owner_address } } := by
      simp only [UncompressedRef.update]
      try dsimp only
      rw [hbh]
      try rfl
    refine ⟨_, _, hc, decodeMessage_encodeMessage _, ?_, ?_, rfl⟩
    · rw [numRequiredSignatures_compileMessage, hs]
      try rfl
    · rw [requiredSigners_compileMessage, hs]
  · intro collection cm md cid mid h2
    have hs := update_signedKeys cfg.treasury_wallet_address
      md.owner_address (metadataPda cm.mint)
      ("update-metadata-v2-verified-collection:" ++ collection.mint) h2
    have hc : UncompressedRef.update_mint cfg rpc collection cm
        ⟨some md, cid, mid⟩
        = .ok { serialized_message :=
                  encodeMessage (compileMessage cfg.treasury_wallet_address
                    bh [updateMetadataV2Ix (metadataPda cm.mint)
                      md.owner_address
                      ("update-metadata-v2-verified-collection:"
                        ++ collection.mint)])
                signatures_or_signers_public_keys :=
                  [cfg.treasury_wallet_address, md.owner_address]
                addresses :=
                  { payer := cfg.treasury_wallet_address
                    metadata := metadataPda cm.mint
                    update_authority := md.owner_address } } := by
      simp only [UncompressedRef.update_mint]
      try dsimp only
      rw [hbh]
      try rfl
    refine ⟨_, _, hc, decodeMessage_encodeMessage _, ?_, ?_, rfl⟩
    · rw [numRequiredSignatures_compileMessage, hs]
      try rfl
    · rw [requiredSigners_compileMessage, hs]
  · intro revision bh0 mdPda tag hrev hne
    have hs := update_signedKeys revision.payer revision.update_authority
      mdPda tag hne
    have hd : decodeMessage revision.serialized_message
        = some (compileMessage revision.payer bh0
            [updateMetadataV2Ix mdPda revision.update_authority tag]) := by
      rw [hrev]
      exact decodeMessage_encodeMessage _
    have hc : UncompressedRef.retry_update_mint rpc revision
        = .ok { serialized_message :=
                  encodeMessage (compileMessage revision.payer bh
                    [updateMetadataV2Ix mdPda revision.update_authority
                      tag])
                signatures_or_signers_public_keys :=
                  [revision.payer, revision.update_authority]
                addresses :=
                  { payer := revision.payer
                    metadata := revision.metadata
                    update_authority := revision.update_authority } } := by
      simp only [UncompressedRef.retry_update_mint, hd]
      try dsimp only
      rw [hbh]
      try rfl
    refine ⟨_, _, hc, decodeMessage_encodeMessage _, ?_, ?_, rfl⟩
    · rw [numRequiredSignatures_compileMessage, hs]
      try rfl
    · rw [requiredSigners_compileMessage, hs]
  · intro cm txn h
    have hs := transfer_signedKeys cfg.treasury_wallet_address
      txn.owner_address txn.recipient_address cm.mint h
    have hc : UncompressedRef.transfer cfg rpc cm txn
        = .ok { serialized_message :=
                  encodeMessage (compileMessage cfg.treasury_wallet_address
                    bh (UncompressedRef.transferInstructions
                      cfg.treasury_wallet_address txn.owner_address
                      txn.recipient_address cm.mint))
                signatures_or_signers_public_keys :=
                  [cfg.treasury_wallet_address, txn.owner_address]
                addresses :=
                  { owner := txn.owner_address
                    recipient := txn.recipient_address
                    recipient_associated_token_account :=
                      get_associated_token_address txn.recipient_address
                        cm.mint
                    owner_associated_token_account :=
                      get_associated_token_address txn.owner_address
                        cm.mint } } := by
      simp only [UncompressedRef.transfer]
      try dsimp only
      rw [hbh]
      try dsimp only
      try rfl
    refine ⟨_, _, hc, decodeMessage_encodeMessage _, ?_, ?_, rfl⟩
    · rw [numRequiredSignatures_compileMessage, hs]
      try rfl
    · rw [requiredSigners_compileMessage, hs]
  · intro leaf txn aid asset prf dh ch haid hasset hprf hdh hch hroot hdh32
      hch32 h
    have hs := compressed_transfer_signedKeys cfg.treasury_wallet_address
      txn.owner_address leaf.tree_authority txn.recipient_address
      leaf.merkle_tree prf.proof
      (encStr "bubblegum-transfer" ++ prf.root ++ dh ++ ch
        ++ encNat asset.compression.leaf_id
        ++ encNat asset.compression.leaf_id) h
    have hc : CompressedRef.transfer cfg rpc leaf txn
        = .ok { serialized_message :=
                  encodeMessage (compileMessage cfg.treasury_wallet_address
                    bh [⟨bubblegumProgId,
                      CompressedRef.transferAccounts leaf.tree_authority
                        txn.owner_address txn.recipient_address
                        leaf.merkle_tree prf.proof,
                      encStr "bubblegum-transfer" ++ prf.root ++ dh ++ ch
                        ++ encNat asset.compression.leaf_id
                        ++ encNat asset.compression.leaf_id⟩])
                signatures_or_signers_public_keys :=
                  [cfg.treasury_wallet_address, txn.owner_address]
                addresses :=
                  { owner := txn.owner_address
                    recipient := txn.recipient_address } } := by
      simp only [CompressedRef.transfer, haid]
      try dsimp only
      rw [hasset]
      try dsimp only
      rw [hprf]
      try dsimp only
      rw [hdh]
      try dsimp only
      rw [hch]
      try dsimp only
      rw [if_neg (by simp [hroot]), if_neg (by simp [hdh32]),
        if_neg (by simp [hch32])]
      try dsimp only
      rw [hbh]
      try dsimp only
      try rfl
    refine ⟨_, _, hc, decodeMessage_encodeMessage _, ?_, ?_, rfl⟩
    · rw [numRequiredSignatures_compileMessage, hs]
      try rfl
    · rw [requiredSigners_compileMessage, hs]
  · intro mintRow collection new_collection h1 h2 h3
    have hs := switch_signedKeys cfg.treasury_wallet_address
      (metadataPda mintRow.mint) collection.owner collection.mint
      (metadataPda collection.mint) collection.master_edition
      new_collection.owner new_collection.update_authority
      new_collection.mint (metadataPda new_collection.mint)
      new_collection.master_edition h1 h2 h3
    have hc : UncompressedRef.switch cfg rpc mintRow collection
        new_collection
        = .ok { serialized_message :=
                  encodeMessage (compileMessage cfg.treasury_wallet_address
                    bh (UncompressedRef.switchInstructions
                      cfg.treasury_wallet_address (metadataPda mintRow.mint)
                      collection.owner collection.mint
                      (metadataPda collection.mint)
                      collection.master_edition new_collection.owner
                      new_collection.update_authority new_collection.mint
                      (metadataPda new_collection.mint)
                      new_collection.master_edition))
                signatures_or_signers_public_keys :=
                  [cfg.treasury_wallet_address, collection.owner]
                addresses :=
                  { payer := cfg.treasury_wallet_address
                    new_collection_authority :=
                      new_collection.owner } } := by
      simp only [UncompressedRef.switch]
      try dsimp only
      rw [hbh]
      try rfl
    refine ⟨_, _, hc, decodeMessage_encodeMessage _, rfl, ?_, ?_⟩
    · rw [requiredSigners_compileMessage, hs]
    · rw [numRequiredSignatures_compileMessage, hs]
      simp

def me5 : MasterEditionArg :=
  ⟨"name5", "sym5", 100, "uri5", [], none, "owner-5"⟩

def md5 : MetaplexMetadataArg := ⟨"name5", "sym5", 100, "uri5", [], "owner-5"⟩

def mintKp5 : Keypair := ⟨"mint-5"⟩

def payload5e : MintMetaplexEditionTransaction :=
  ⟨"recip-5", "owner-5", 1, uuidB⟩

def payload5u : UpdateSolanaMintPayload := ⟨some md5, uuidB, uuidA⟩

/-- A stored revision whose message is one `update_mint` writes: a single
`update_metadata_accounts_v2` signed by payer and update authority. -/
def rev5 : UpdateRevisionRow :=
  ⟨uuidA, uuidB,
    encodeMessage (compileMessage "payer-5r" "blockhash-0"
      [updateMetadataV2Ix "md-5r" "ua-5r"
        "update-metadata-v2-verified-collection"]),
    "payer-5r", "md-5r", "ua-5r"⟩

def asset5 : AssetRec :=
  ⟨⟨some (List.replicate 32 1), some (List.replicate 32 2), 7⟩⟩

def proof5 : AssetProofRec := ⟨List.replicate 32 3, ["proof-a", "proof-b"]⟩

def leaf5 : CompressionLeafRow :=
  ⟨uuidA, uuidB, "merkle-5", "tree-auth-5", "delegate-5", "owner-5",
    some "aid-5", 0⟩

/-- A second collection row with a different owner, for the switch. -/
def col5b : CollectionRow :=
  ⟨uuidA, "me-8", "owner-8", "meta-8", "colata-8", "colmint-8", "ua-8", 0⟩

/-- An oracle like `rpcW` whose Digital Asset API calls also succeed. -/
def rpc5 : Rpc :=
  { latestBlockhash := .ok "blockhash-2"
    minRentExemption := fun _ => .ok 1000
    sendTransaction := fun _ => .ok "sig-ok"
    getTransaction := fun _ => .error "unused"
    decodeCompressionEvent := fun _ => .error .Base58
    getAsset := fun _ => .ok asset5
    getAssetProof := fun _ => .ok proof5
    getAccount := fun _ => .error "unused" }

/-- Witness for C5's theorem: every conjunct instantiated at a concrete
input, with every hypothesis discharged. -/
theorem c5_signatures_or_signers_positional_witness :
    (∃ resp msg,
      UncompressedRef.create cfgW rpc5 mintKp5 ⟨some me5⟩ = .ok resp
      ∧ decodeMessage resp.serialized_message = some msg
      ∧ resp.signatures_or_signers_public_keys.length
          = msg.header.numRequiredSignatures
      ∧ requiredSigners msg = ["treasury-w", "mint-5", "owner-5"]
      ∧ resp.signatures_or_signers_public_keys
          = ["treasury-w", signMessage mintKp5 resp.serialized_message,
              "owner-5"])
    ∧ (∃ resp msg,
      UncompressedRef.mint cfgW rpc5 mintKp5 colA
          ⟨"recip-5", some md5, uuidB, false⟩ = .ok resp
      ∧ decodeMessage resp.serialized_message = some msg
      ∧ resp.signatures_or_signers_public_keys.length
          = msg.header.numRequiredSignatures
      ∧ requiredSigners msg = ["treasury-w", "mint-5", "owner-5"]
      ∧ resp.signatures_or_signers_public_keys
          = ["treasury-w", signMessage mintKp5 resp.serialized_message,
              "owner-5"])
    ∧ (∃ resp msg,
      CompressedRef.mint cfgW rpc5 colA ⟨"recip-5", some md5, uuidB, true⟩
          = .ok resp
      ∧ decodeMessage resp.serialized_message = some msg
      ∧ resp.signatures_or_signers_public_keys.length
          = msg.header.numRequiredSignatures
      ∧ requiredSigners msg = ["treasury-w", "owner-5"]
      ∧ resp.signatures_or_signers_public_keys
          = ["treasury-w", "owner-5"])
    ∧ (∃ resp msg,
      EditionRef.mint cfgW rpc5 mintKp7 colA payload5e = .ok resp
      ∧ decodeMessage resp.serialized_message = some msg
      ∧ resp.signatures_or_signers_public_keys.length
          = msg.header.numRequiredSignatures
      ∧ requiredSigners msg = ["treasury-w", "new-mint-7", "owner-5"]
      ∧ resp.signatures_or_signers_public_keys
          = ["treasury-w", signMessage mintKp7 resp.serialized_message,
              "owner-5"])
    ∧ (∃ resp msg,
      UncompressedRef.update cfgW rpc5 colA ⟨some me5⟩ = .ok resp
      ∧ decodeMessage resp.serialized_message = some msg
      ∧ resp.signatures_or_signers_public_keys.length
          = msg.header.numRequiredSignatures
      ∧ requiredSigners msg = ["treasury-w", "owner-5"]
      ∧ resp.signatures_or_signers_public_keys
          = ["treasury-w", "owner-5"])
    ∧ (∃ resp msg,
      UncompressedRef.update_mint cfgW rpc5 colA mintRowA payload5u
          = .ok resp
      ∧ decodeMessage resp.serialized_message = some msg
      ∧ resp.signatures_or_signers_public_keys.length
          = msg.header.numRequiredSignatures
      ∧ requiredSigners msg = ["treasury-w", "owner-5"]
      ∧ resp.signatures_or_signers_public_keys
          = ["treasury-w", "owner-5"])
    ∧ (∃ resp msg,
      UncompressedRef.retry_update_mint rpc5 rev5 = .ok resp
      ∧ decodeMessage resp.serialized_message = some msg
      ∧ resp.signatures_or_signers_public_keys.length
          = msg.header.numRequiredSignatures
      ∧ requiredSigners msg = ["payer-5r", "ua-5r"]
      ∧ resp.signatures_or_signers_public_keys = ["payer-5r", "ua-5r"])
    ∧ (∃ resp msg,
      UncompressedRef.transfer cfgW rpc5 mintRowA payload6 = .ok resp
      ∧ decodeMessage resp.serialized_message = some msg
      ∧ resp.signatures_or_signers_public_keys.length
          = msg.header.numRequiredSignatures
      ∧ requiredSigners msg = ["treasury-w", "owner-1"]
      ∧ resp.signatures_or_signers_public_keys
          = ["treasury-w", "owner-1"])
    ∧ (∃ resp msg,
      CompressedRef.transfer cfgW rpc5 leaf5 payload6 = .ok resp
      ∧ decodeMessage resp.serialized_message = some msg
      ∧ resp.signatures_or_signers_public_keys.length
          = msg.header.numRequiredSignatures
      ∧ requiredSigners msg = ["treasury-w", "owner-1"]
      ∧ resp.signatures_or_signers_public_keys
          = ["treasury-w", "owner-1"])
    ∧ (∃ resp msg,
      UncompressedRef.switch cfgW rpc5 mintRowA colA col5b = .ok resp
      ∧ decodeMessage resp.serialized_message = some msg
      ∧ resp.signatures_or_signers_public_keys
          = ["treasury-w", "owner-7"]
      ∧ requiredSigners msg = ["treasury-w", "owner-7", "owner-8"]
      ∧ resp.signatures_or_signers_public_keys.length
          ≠ msg.header.numRequiredSignatures) := by
  have h := c5_signatures_or_signers_positional cfgW rpc5 1000 "blockhash-2"
    rfl rfl
  exact ⟨h.1 mintKp5 me5 (by decide) (by decide) (by decide),
    h.2.1 mintKp5 md5 "recip-5" uuidB false colA (by decide) (by decide)
      (by decide),
    h.2.2.1 md5 "recip-5" uuidB true colA (by decide),
    h.2.2.2.1 mintKp7 colA payload5e (by decide) (by decide) (by decide),
    h.2.2.2.2.1 colA me5 (by decide),
    h.2.2.2.2.2.1 colA mintRowA md5 uuidB uuidA (by decide),
    h.2.2.2.2.2.2.1 rev5 "blockhash-0" "md-5r"
      "update-metadata-v2-verified-collection" rfl (by decide),
    h.2.2.2.2.2.2.2.1 mintRowA payload6 (by decide),
    h.2.2.2.2.2.2.2.2.1 leaf5 payload6 "aid-5" asset5 proof5
      (List.replicate 32 1) (List.replicate 32 2) rfl rfl rfl rfl rfl rfl
      rfl rfl (by decide),
    h.2.2.2.2.2.2.2.2.2 mintRowA colA col5b (by decide) (by decide)
      (by decide)⟩

/-- C5 counterexample (the claim as frozen, "for every builder"): at a
concrete `UncompressedRef::switch` of a mint from a collection owned by
`"owner-7"` to a collection owned by `"owner-8"`, the serialized message
declares THREE required signers — the payer, the current collection
authority, and the new collection authority (a required signer of
`set_and_verify_sized_collection_item`) — but the returned
`signatures_or_signers_public_keys` vector has TWO entries: its length is
not the declared required-signer count, and the third positional slot
(`"owner-8"`) has no entry at all. -/
theorem c5_counterexample :
    ∃ resp msg,
      UncompressedRef.switch cfgW rpcW mintRowA colA col5b = .ok resp
      ∧ decodeMessage resp.serialized_message = some msg
      ∧ resp.signatures_or_signers_public_keys = ["treasury-w", "owner-7"]
      ∧ requiredSigners msg = ["treasury-w", "owner-7", "owner-8"]
      ∧ resp.signatures_or_signers_public_keys.length = 2
      ∧ msg.header.numRequiredSignatures = 3
      ∧ "owner-8" ∉ resp.signatures_or_signers_public_keys := by
  refine ⟨_, _, rfl, decodeMessage_encodeMessage _, rfl, ?_, rfl, ?_, ?_⟩
  · decide
  · decide
  · decide

end HubSolana
